import Mathlib

/-!
Shallow embedding of the DataHaven demo dApp's cross-system orchestration core
(bucket/file lifecycle orchestration, bounded convergence polling, gas-option
construction, and the MSP session state) together with proofs of the spec
claims about it.

External collaborators (chain client, MSP backend client, storage-provider
transfer client, content-addressing primitive) are modelled as oracle values
carried in per-operation environment records; each call to a collaborator is
recorded as an `Event` in a trace, and thrown JavaScript errors are modelled
by the `JsErr` shape (the fields the code actually inspects: `message`,
`status`, `body.error`).
-/

/-- Shape of a thrown JavaScript error as observed by this codebase: a plain
`new Error(msg)` carries only `message`; backend HTTP errors carry `status`
and `body.error`. -/
structure JsErr where
  message : Option String
  status : Option Nat
  bodyError : Option String
  deriving DecidableEq, Repr

/-- Model of `new Error(msg)`. -/
def mkError (msg : String) : JsErr := ⟨some msg, none, none⟩

/-- Observable side effects of the orchestration code: ledger transaction
submissions, receipt waits, direct chain queries, backend (MSP client) calls,
the byte transfer to the storage provider, SIWE authentication, timer waits,
and UI progress-step updates. -/
inductive Event where
  | txSubmit (op : String)
  | receiptWait
  | chainQuery (what : String)
  | indexCall (what : String)
  | byteTransfer
  | authCall
  | wait (ms : Nat)
  | progress (step : String)
  deriving DecidableEq, Repr

/-- Computation monad for the embedded async functions: threads an event
trace and propagates thrown `JsErr`s (JavaScript exception semantics). -/
def M (α : Type) : Type := List Event → Except JsErr α × List Event

def M.pure {α : Type} (a : α) : M α := fun s => (Except.ok a, s)

def M.bind {α β : Type} (x : M α) (f : α → M β) : M β := fun s =>
  match x s with
  | (Except.ok a, s1) => f a s1
  | (Except.error e, s1) => (Except.error e, s1)

instance : Monad M where
  pure := M.pure
  bind := M.bind

/-- Record an event in the trace. -/
def emit (e : Event) : M Unit := fun s => (Except.ok (), s ++ [e])

/-- Throw a JavaScript error. -/
def throwM {α : Type} (e : JsErr) : M α := fun s => (Except.error e, s)

/-- An awaited external call: records its event and propagates the modelled
outcome (success value or thrown error). -/
def callE {α : Type} (ev : Event) (r : Except JsErr α) : M α := fun s =>
  (r, s ++ [ev])

/-- An awaited external call inside a `try` block: records its event and
hands the outcome back as a value so the surrounding `catch` can inspect it. -/
def callCaught {α : Type} (ev : Event) (r : Except JsErr α) : M (Except JsErr α) :=
  fun s => (Except.ok r, s ++ [ev])

/-- Latest-block data used by `buildGasTxOpts` (`baseFeePerGas` may be absent
on pre-EIP-1559 responses). -/
structure Block where
  baseFeePerGas : Option Nat
  deriving DecidableEq, Repr

/-- EIP-1559 write options returned by `buildGasTxOpts`. -/
structure EvmWriteOptions where
  gas : Nat
  maxFeePerGas : Nat
  maxPriorityFeePerGas : Nat
  deriving DecidableEq, Repr

/-- Embedding of `buildGasTxOpts` (clientService.ts): fixed 1,500,000 gas
limit, 1.5 gwei priority fee, and `maxFeePerGas = baseFee * 2 + priority`
computed from the latest block fetched at call time; throws when the latest
block has no `baseFeePerGas`. -/
def buildGasTxOpts (latestBlock : Block) : Except JsErr EvmWriteOptions :=
  let gas : Nat := 1500000
  match latestBlock.baseFeePerGas with
  | none => Except.error (mkError
      "RPC did not return baseFeePerGas for the latest block. Cannot build EIP-1559 fees.")
  | some baseFeePerGas =>
    let maxPriorityFeePerGas : Nat := 1500000000
    let maxFeePerGas : Nat := baseFeePerGas * 2 + maxPriorityFeePerGas
    Except.ok ⟨gas, maxFeePerGas, maxPriorityFeePerGas⟩

/-- Backend file record as read by this code: only the `status` string is
inspected (`pending`, `ready`, `revoked`, `rejected`, `expired`). -/
structure FileInfo where
  status : String
  deriving DecidableEq, Repr

/-- On-chain storage-request record as read by this code: `msp` is the
optional `(mspId, confirmed)` pair, where `confirmed` models `mspTuple[1].isTrue`. -/
structure StorageRequestData where
  msp : Option (String × Bool)
  deriving DecidableEq, Repr

/-- Record-not-found classification used by the backend pollers:
`err?.status === 404 || err?.body?.error === 'Not found: Record'`. -/
def isRecordNotFound (e : JsErr) : Bool :=
  e.status == some 404 || e.bodyError == some "Not found: Record"

/-- Loop body of `waitForBackendFileReady` (part_000), with the remaining
iteration budget as explicit fuel. `probe j` models the outcome of the
`getFileInfo` call on the j-th attempt. -/
def waitForBackendFileReadyAux (probe : Nat → Except JsErr FileInfo)
    (i fuel : Nat) : M FileInfo :=
  match fuel with
  | 0 => throwM (mkError "Timed out waiting for file to be ready")
  | Nat.succ f => do
    let attempt ← callCaught (Event.indexCall "getFileInfo") (probe i)
    let tryOutcome : Except JsErr (Option FileInfo) :=
      match attempt with
      | Except.ok fileInfo =>
        if fileInfo.status = "ready" then Except.ok (some fileInfo)
        else if fileInfo.status = "revoked" then
          Except.error (mkError "File upload was cancelled by user")
        else if fileInfo.status = "rejected" then
          Except.error (mkError "File upload was rejected by MSP")
        else if fileInfo.status = "expired" then
          Except.error (mkError "Storage request expired")
        else Except.ok none
      | Except.error e => Except.error e
    match tryOutcome with
    | Except.ok (some fileInfo) => pure fileInfo
    | Except.ok none => do
        emit (Event.wait 5000)
        waitForBackendFileReadyAux probe (i + 1) f
    | Except.error e =>
        if isRecordNotFound e then do
          emit (Event.wait 5000)
          waitForBackendFileReadyAux probe (i + 1) f
        else throwM e

/-- Embedding of `waitForBackendFileReady` (part_000): up to 60 attempts at a
5000 ms interval. -/
def waitForBackendFileReady (probe : Nat → Except JsErr FileInfo) : M FileInfo :=
  waitForBackendFileReadyAux probe 0 60

/-- Backend bucket record: opaque, only its presence (truthiness) is used. -/
structure Bucket where
  bucketId : String
  deriving DecidableEq, Repr

/-- Loop body of `waitForBackendBucketReady` (part_001). `probe j` models the
`getBucket` call on the j-th attempt; `Except.ok none` models a falsy result. -/
def waitForBackendBucketReadyAux (bucketId : String)
    (probe : Nat → Except JsErr (Option Bucket)) (i fuel : Nat) : M Unit :=
  match fuel with
  | 0 => throwM (mkError ("Bucket " ++ bucketId ++ " not found in MSP backend after waiting"))
  | Nat.succ f => do
    let attempt ← callCaught (Event.indexCall "getBucket") (probe i)
    let tryOutcome : Except JsErr Bool :=
      match attempt with
      | Except.ok (some _) => Except.ok true
      | Except.ok none => Except.ok false
      | Except.error e => Except.error e
    match tryOutcome with
    | Except.ok true => pure ()
    | Except.ok false => do
        emit (Event.wait 2000)
        waitForBackendBucketReadyAux bucketId probe (i + 1) f
    | Except.error e =>
        if isRecordNotFound e then do
          emit (Event.wait 2000)
          waitForBackendBucketReadyAux bucketId probe (i + 1) f
        else throwM e

/-- Embedding of `waitForBackendBucketReady` (part_001): up to 10 attempts at
a 2000 ms interval. -/
def waitForBackendBucketReady (bucketId : String)
    (probe : Nat → Except JsErr (Option Bucket)) : M Unit :=
  waitForBackendBucketReadyAux bucketId probe 0 10

/-- Loop body of `waitForMSPConfirmOnChain` (part_000). `probe j` models the
`polkadotApi.query.fileSystem.storageRequests(fileKey)` read on the j-th
attempt; `none` models `isNone`. -/
def waitForMSPConfirmOnChainAux (fileKey : String)
    (probe : Nat → Option StorageRequestData) (i fuel : Nat) : M Unit :=
  match fuel with
  | 0 => throwM (mkError ("FileKey " ++ fileKey ++ " not confirmed by MSP after waiting"))
  | Nat.succ f => do
    let req ← callE (Event.chainQuery "storageRequests") (Except.ok (probe i))
    match req with
    | none => throwM (mkError
        ("StorageRequest for " ++ fileKey ++ " no longer exists on-chain."))
    | some data =>
      let mspConfirmed :=
        match data.msp with
        | some mspTuple => mspTuple.2
        | none => false
      if mspConfirmed then pure ()
      else do
        emit (Event.wait 2000)
        waitForMSPConfirmOnChainAux fileKey probe (i + 1) f

/-- Embedding of `waitForMSPConfirmOnChain` (part_000): up to 10 attempts at
a 2000 ms interval. -/
def waitForMSPConfirmOnChain (fileKey : String)
    (probe : Nat → Option StorageRequestData) : M Unit :=
  waitForMSPConfirmOnChainAux fileKey probe 0 10

/-- True on the events that model a poller's probe invocation (a backend call
or a direct chain query). -/
def isProbeEvent : Event → Bool
  | Event.indexCall _ => true
  | Event.chainQuery _ => true
  | _ => false

/-- Number of probe invocations recorded in a trace. -/
def probeEvents (t : List Event) : Nat := t.countP isProbeEvent

/-- Milliseconds of timer wait contributed by one event. -/
def eventWait : Event → Nat
  | Event.wait ms => ms
  | _ => 0

/-- Total milliseconds of timer waits recorded in a trace. -/
def waitedMs (t : List Event) : Nat := (t.map eventWait).sum

/-- Trace left by `n` unsatisfied poll iterations: probe event then interval
wait, `n` times. -/
def pollTrace (probeEv : Event) (ms : Nat) : Nat → List Event
  | 0 => []
  | Nat.succ n => probeEv :: Event.wait ms :: pollTrace probeEv ms n

/-- A `getFileInfo` probe outcome that `waitForBackendFileReady` treats as
"keep polling": a record in a non-terminal, non-ready state, or a
record-not-found error. -/
def fileNotYet (r : Except JsErr FileInfo) : Bool :=
  match r with
  | Except.ok info =>
    !(info.status == "ready") && !(info.status == "revoked") &&
    !(info.status == "rejected") && !(info.status == "expired")
  | Except.error e => isRecordNotFound e

/-- A `getFileInfo` probe outcome that stops `waitForBackendFileReady` with an
error, paired with the error it produces: a terminal failure status or a
probe error that is not record-not-found. -/
def fileStopError (r : Except JsErr FileInfo) : Option JsErr :=
  match r with
  | Except.ok info =>
    if info.status = "ready" then none
    else if info.status = "revoked" then some (mkError "File upload was cancelled by user")
    else if info.status = "rejected" then some (mkError "File upload was rejected by MSP")
    else if info.status = "expired" then some (mkError "Storage request expired")
    else none
  | Except.error e => if isRecordNotFound e then none else some e

/-- A `getBucket` probe outcome that `waitForBackendBucketReady` treats as
"keep polling": a falsy result or a record-not-found error. -/
def bucketNotYet (r : Except JsErr (Option Bucket)) : Bool :=
  match r with
  | Except.ok (some _) => false
  | Except.ok none => true
  | Except.error e => isRecordNotFound e

/-- Whether an on-chain storage-request record shows the MSP countersignature
(`mspTuple[1].isTrue` in the source). -/
def srConfirmed (d : StorageRequestData) : Bool :=
  match d.msp with
  | some mspTuple => mspTuple.2
  | none => false

/-- A `storageRequests` probe outcome that `waitForMSPConfirmOnChain` treats
as "keep polling": the record exists but is not yet countersigned. -/
def confirmNotYet (r : Option StorageRequestData) : Bool :=
  match r with
  | some d => !(srConfirmed d)
  | none => false

/-- Receipt returned by `publicClient.waitForTransactionReceipt`: only the
`status` string (`success` / `reverted`) is inspected. -/
structure Receipt where
  status : String
  deriving DecidableEq, Repr

/-- MSP info returned by `getMspInfo`: the provider id and its optional
multiaddress list. -/
structure MspInfo where
  mspId : String
  multiaddresses : Option (List String)
  deriving DecidableEq, Repr

/-- Oracle environment of `createBucket` (part_001): the connected address,
the outcomes of the external calls it awaits, and the pure client-side
bucket-id derivation. -/
structure CreateBucketEnv where
  address : Option String
  mspInfo : Except JsErr MspInfo
  valueProps : Except JsErr String
  deriveBucketId : String → String → String
  queryBucketIsEmpty : String → Except JsErr Bool
  latestBlock : Block
  createBucketTx : Except JsErr (Option String)
  receipt : String → Except JsErr Receipt

/-- Embedding of `createBucket` (part_001): precondition checks, client-side
bucket-id derivation, existence check on the ledger, gas construction, ledger
write, receipt wait and receipt-status check. -/
def createBucket (env : CreateBucketEnv) (bucketName : String) : M (String × Receipt) :=
  match env.address with
  | none => throwM (mkError "Wallet not connected")
  | some address => do
    let info ← callE (Event.indexCall "getInfo") env.mspInfo
    let valuePropId ← callE (Event.indexCall "getValuePropositions") env.valueProps
    let _ := info.mspId
    let _ := valuePropId
    let bucketId := env.deriveBucketId address bucketName
    let bucketBeforeCreationIsEmpty ←
      callE (Event.chainQuery "buckets") (env.queryBucketIsEmpty bucketId)
    if !bucketBeforeCreationIsEmpty then
      throwM (mkError ("Bucket already exists: " ++ bucketId))
    else do
      let _gasTxOpts ← callE (Event.chainQuery "getBlock") (buildGasTxOpts env.latestBlock)
      let txHashOpt ← callE (Event.txSubmit "createBucket") env.createBucketTx
      match txHashOpt with
      | none => throwM (mkError "createBucket() did not return a transaction hash")
      | some txHash => do
        let txReceipt ← callE Event.receiptWait (env.receipt txHash)
        if txReceipt.status ≠ "success" then
          throwM (mkError ("Bucket creation failed: " ++ txHash))
        else
          pure (bucketId, txReceipt)

/-- Oracle environment of `deleteBucket` (part_001). -/
structure DeleteBucketEnv where
  latestBlock : Block
  deleteBucketTx : Except JsErr (Option String)
  receipt : String → Except JsErr Receipt

/-- Embedding of `deleteBucket` (part_001): gas construction, ledger write,
receipt wait, receipt-status check — no backend-index interaction. -/
def deleteBucket (env : DeleteBucketEnv) (bucketId : String) : M Bool := do
  let _gasTxOpts ← callE (Event.chainQuery "getBlock") (buildGasTxOpts env.latestBlock)
  let txHashOpt ← callE (Event.txSubmit "deleteBucket") env.deleteBucketTx
  match txHashOpt with
  | none => throwM (mkError "deleteBucket() did not return a transaction hash")
  | some txHash => do
    let receipt ← callE Event.receiptWait (env.receipt txHash)
    if receipt.status ≠ "success" then
      throwM (mkError ("Bucket deletion failed: " ++ txHash))
    else
      pure true

/-- Receipt returned by the MSP transfer endpoint (`uploadFile`): only the
`status` string (`upload_successful` on success) is inspected. -/
structure UploadReceipt where
  status : String
  deriving DecidableEq, Repr

/-- Splitter over character lists modelling the JavaScript
`String.prototype.split` for a non-empty separator; the fuel argument (the
input length bounds the number of steps) keeps the recursion structural. -/
def splitOnCharsAux (sep : List Char) : Nat → List Char → List Char → List (List Char)
  | _, [], acc => [acc.reverse]
  | 0, xs, acc => [acc.reverse ++ xs]
  | Nat.succ n, x :: rest, acc =>
    if sep.isPrefixOf (x :: rest) then
      acc.reverse :: splitOnCharsAux sep n ((x :: rest).drop sep.length) []
    else
      splitOnCharsAux sep n rest (x :: acc)

/-- JavaScript `s.split(sep)` for a non-empty separator. -/
def jsSplit (s sep : String) : List String :=
  (splitOnCharsAux sep.data s.data.length s.data []).map (fun cs => String.mk cs)

/-- Peer-id extraction used by `uploadFile`:
`addr.split('/p2p/').pop()` then filtering out falsy results. -/
def extractPeerId (addr : String) : Option String :=
  match (jsSplit addr "/p2p/").getLast? with
  | some last => if last.isEmpty then none else some last
  | none => none

/-- Conditional SIWE authentication in `uploadFile`:
`if (!isAuthenticated()) await authenticateUser()`. -/
def maybeAuthenticate (isAuth : Bool) (r : Except JsErr Unit) : M Unit :=
  if !isAuth then callE Event.authCall r else M.pure ()

/-- Oracle environment of `uploadFile` (part_000): the connected address, the
content-addressing results, and the outcomes of the awaited external calls. -/
structure UploadFileEnv where
  address : Option String
  fingerprint : String
  fileSize : Nat
  mspInfo : Except JsErr MspInfo
  latestBlock : Block
  issueStorageRequestTx : Except JsErr (Option String)
  receipt : String → Except JsErr Receipt
  computeFileKey : String → String → String → String
  storageRequests : String → Except JsErr (Option StorageRequestData)
  isAuthenticated : Bool
  authenticate : Except JsErr Unit
  mspUpload : Except JsErr UploadReceipt

/-- Embedding of `uploadFile` (part_000): fingerprinting, MSP peer-id
extraction, gas construction, the `issueStorageRequest` ledger write with its
receipt check, file-key computation, on-chain verification, authentication if
needed, and the byte transfer to the MSP with its own status check. -/
def uploadFile (env : UploadFileEnv) (bucketId fileName : String) :
    M (String × UploadReceipt) :=
  match env.address with
  | none => throwM (mkError "Wallet not connected")
  | some address => do
    let _fingerprint := env.fingerprint
    let _fileSizeBigInt := env.fileSize
    let info ← callE (Event.indexCall "getInfo") env.mspInfo
    match info.multiaddresses with
    | none => throwM (mkError "MSP multiaddresses are missing")
    | some multiaddresses =>
      if multiaddresses.isEmpty then throwM (mkError "MSP multiaddresses are missing")
      else do
        let peerIds := multiaddresses.filterMap extractPeerId
        if peerIds.length = 0 then
          throwM (mkError "MSP multiaddresses had no /p2p/<peerId> segment")
        else do
          let _gasTxOpts ← callE (Event.chainQuery "getBlock") (buildGasTxOpts env.latestBlock)
          let txHashOpt ← callE (Event.txSubmit "issueStorageRequest") env.issueStorageRequestTx
          match txHashOpt with
          | none => throwM (mkError "issueStorageRequest() did not return a transaction hash")
          | some txHash => do
            let receipt ← callE Event.receiptWait (env.receipt txHash)
            if receipt.status ≠ "success" then
              throwM (mkError ("Storage request failed: " ++ txHash))
            else do
              let fileKey := env.computeFileKey address bucketId fileName
              let storageRequest ← callE (Event.chainQuery "storageRequests")
                (env.storageRequests fileKey)
              match storageRequest with
              | none => throwM (mkError "Storage request not found on chain")
              | some _ => do
                let _ ← maybeAuthenticate env.isAuthenticated env.authenticate
                let uploadReceipt ← callE Event.byteTransfer env.mspUpload
                if uploadReceipt.status ≠ "upload_successful" then
                  throwM (mkError "File upload to MSP failed")
                else
                  pure (fileKey, uploadReceipt)

/-- Oracle environment of `requestDeleteFile` (part_000). -/
structure RequestDeleteFileEnv where
  fileInfoBefore : Except JsErr FileInfo
  latestBlock : Block
  requestDeleteFileTx : Except JsErr String
  receipt : String → Except JsErr Receipt

/-- Embedding of `requestDeleteFile` (part_000): pre-deletion metadata read,
gas construction, ledger write, receipt wait and receipt-status check. -/
def requestDeleteFile (env : RequestDeleteFileEnv) (bucketId fileKey : String) : M Bool := do
  let _fileInfo ← callE (Event.indexCall "getFileInfo") env.fileInfoBefore
  let _gasTxOpts ← callE (Event.chainQuery "getBlock") (buildGasTxOpts env.latestBlock)
  let txHash ← callE (Event.txSubmit "requestDeleteFile") env.requestDeleteFileTx
  let receipt ← callE Event.receiptWait (env.receipt txHash)
  if receipt.status ≠ "success" then
    throwM (mkError ("File deletion failed: " ++ txHash))
  else
    pure true

/-- Oracle environment of the upload flow `handleUpload`
(src/pages/Files.tsx): the `uploadFile` environment plus the probe sequences
of the two pollers it runs afterwards. -/
structure HandleUploadEnv where
  upload : UploadFileEnv
  confirmProbe : Nat → Option StorageRequestData
  fileReadyProbe : Nat → Except JsErr FileInfo

/-- Embedding of the orchestration sequence of `handleUpload`
(src/pages/Files.tsx): progress steps `preparing → issuing → confirming →
finalizing → done`, calling `uploadFile`, then `waitForMSPConfirmOnChain`,
then `waitForBackendFileReady`. -/
def handleUpload (env : HandleUploadEnv) (bucketId fileName : String) : M Unit := do
  emit (Event.progress "preparing")
  emit (Event.wait 500)
  emit (Event.progress "issuing")
  let r ← uploadFile env.upload bucketId fileName
  emit (Event.progress "confirming")
  waitForMSPConfirmOnChain r.1 env.confirmProbe
  emit (Event.progress "finalizing")
  let _ ← waitForBackendFileReady env.fileReadyProbe
  emit (Event.progress "done")

/-- Concrete happy-path environment for `createBucket` (every external call
succeeds and the receipt reports success). -/
def cenvOk : CreateBucketEnv :=
  ⟨some "0xA", Except.ok ⟨"0xM", some ["/p2p/p1"]⟩, Except.ok "0xVP",
   fun _ _ => "0xB", fun _ => Except.ok true, ⟨some 7⟩,
   Except.ok (some "0xT"), fun _ => Except.ok ⟨"success"⟩⟩

/-- Concrete environment for `createBucket` whose receipt reports `reverted`. -/
def cenvRev : CreateBucketEnv :=
  ⟨some "0xA", Except.ok ⟨"0xM", some ["/p2p/p1"]⟩, Except.ok "0xVP",
   fun _ _ => "0xB", fun _ => Except.ok true, ⟨some 7⟩,
   Except.ok (some "0xT"), fun _ => Except.ok ⟨"reverted"⟩⟩

/-- Concrete happy-path environment for `deleteBucket`. -/
def denvOk : DeleteBucketEnv :=
  ⟨⟨some 7⟩, Except.ok (some "0xT"), fun _ => Except.ok ⟨"success"⟩⟩

/-- Concrete environment for `deleteBucket` whose receipt reports `reverted`. -/
def denvRev : DeleteBucketEnv :=
  ⟨⟨some 7⟩, Except.ok (some "0xT"), fun _ => Except.ok ⟨"reverted"⟩⟩

/-- Concrete happy-path environment for `uploadFile` (already authenticated,
storage request found on chain, MSP byte transfer succeeds). -/
def uenvOk : UploadFileEnv :=
  ⟨some "0xA", "0xFP", 10, Except.ok ⟨"0xM", some ["/p2p/p1"]⟩, ⟨some 7⟩,
   Except.ok (some "0xT"), fun _ => Except.ok ⟨"success"⟩,
   fun _ _ _ => "0xFK", fun _ => Except.ok (some ⟨some ("0xM", true)⟩),
   true, Except.ok (), Except.ok ⟨"upload_successful"⟩⟩

/-- Concrete environment for `uploadFile` whose storage-request receipt
reports `reverted`. -/
def uenvRev : UploadFileEnv :=
  ⟨some "0xA", "0xFP", 10, Except.ok ⟨"0xM", some ["/p2p/p1"]⟩, ⟨some 7⟩,
   Except.ok (some "0xT"), fun _ => Except.ok ⟨"reverted"⟩,
   fun _ _ _ => "0xFK", fun _ => Except.ok (some ⟨some ("0xM", true)⟩),
   true, Except.ok (), Except.ok ⟨"upload_successful"⟩⟩

/-- Concrete happy-path environment for `requestDeleteFile`. -/
def renvOk : RequestDeleteFileEnv :=
  ⟨Except.ok ⟨"ready"⟩, ⟨some 7⟩, Except.ok "0xT", fun _ => Except.ok ⟨"success"⟩⟩

/-- Concrete environment for `requestDeleteFile` whose receipt reports
`reverted`. -/
def renvRev : RequestDeleteFileEnv :=
  ⟨Except.ok ⟨"ready"⟩, ⟨some 7⟩, Except.ok "0xT", fun _ => Except.ok ⟨"reverted"⟩⟩

/-- True on events that are backend (MSP client) calls. -/
def isIndexCallE : Event → Bool
  | Event.indexCall _ => true
  | _ => false

/-- True on timer-wait events. -/
def isWaitE : Event → Bool
  | Event.wait _ => true
  | _ => false

/-- True on ledger transaction submissions. -/
def isTxSubmitE : Event → Bool
  | Event.txSubmit _ => true
  | _ => false

/-- User profile returned by the MSP auth endpoint; the session state only
tracks its presence. -/
structure UserInfo where
  address : String
  deriving DecidableEq, Repr

/-- Module-level session state of mspService.ts: the MSP client instance
(tracked by presence), the SIWE session token, and the authenticated user
profile. -/
structure MspState where
  mspClientConnected : Bool
  sessionToken : Option String
  authenticatedUserProfile : Option UserInfo
  deriving DecidableEq, Repr

/-- Embedding of `disconnectMsp` (mspService.ts): resets the client instance,
the session token and the profile. -/
def disconnectMsp (_st : MspState) : MspState := ⟨false, none, none⟩

/-- Embedding of the `sessionProvider` closure (mspService.ts): yields
`{token, user: {address}}` only when both a session token and a connected
address are present, `undefined` otherwise. -/
def sessionProvider (st : MspState) (connectedAddress : Option String) :
    Option (String × String) :=
  match st.sessionToken, connectedAddress with
  | some token, some address => some (token, address)
  | _, _ => none

/-- Modelled from the spec: the backend client (the MspClient connected with
`sessionProvider` in `connectToMsp`; its implementation is outside this
repository) asks the session provider for credentials immediately before
dispatching each request and attaches the returned token, so a request is
dispatched without a token exactly when the provider yields nothing. -/
def dispatchedToken (st : MspState) (connectedAddress : Option String) : Option String :=
  (sessionProvider st connectedAddress).map (fun creds => creds.1)

/-- Trace of a fully successful upload flow in which every poll succeeds on
its first probe: the byte transfer to the MSP happens strictly between the
`issuing` and `confirming` progress steps, before the confirmation poll. -/
def uploadHappyTrace : List Event :=
  [Event.progress "preparing", Event.wait 500, Event.progress "issuing",
   Event.indexCall "getInfo", Event.chainQuery "getBlock",
   Event.txSubmit "issueStorageRequest", Event.receiptWait,
   Event.chainQuery "storageRequests", Event.byteTransfer,
   Event.progress "confirming", Event.chainQuery "storageRequests",
   Event.progress "finalizing", Event.indexCall "getFileInfo",
   Event.progress "done"]

/-- Concrete happy-path environment for the upload flow: every external call
succeeds, the storage provider countersigns on the first confirmation probe
and the backend reports `ready` on the first readiness probe. -/
def henvHappy : HandleUploadEnv :=
  ⟨uenvOk, fun _ => some ⟨some ("0xM", true)⟩, fun _ => Except.ok ⟨"ready"⟩⟩

/-- Claim C7: `buildGasTxOpts` is a function of the latest block fetched on
each call; whenever that block carries a base fee `f` it returns exactly
`maxFeePerGas = 2 * f + 1500000000` wei with priority fee 1500000000 wei and
gas limit 1500000, and when the block carries no `baseFeePerGas` it throws. -/
theorem buildGasTxOpts_spec (b : Block) :
    (∀ f : Nat, b.baseFeePerGas = some f →
      buildGasTxOpts b = Except.ok ⟨1500000, 2 * f + 1500000000, 1500000000⟩) ∧
    (b.baseFeePerGas = none →
      buildGasTxOpts b = Except.error (mkError
        "RPC did not return baseFeePerGas for the latest block. Cannot build EIP-1559 fees.")) := by
  constructor
  · intro f hf
    simp [buildGasTxOpts, hf, Nat.mul_comm]
  · intro hnone
    simp [buildGasTxOpts, hnone]

/-- Witness for C7 at a concrete base fee of 7 wei and at a block without a
base fee. -/
theorem buildGasTxOpts_spec_witness :
    buildGasTxOpts ⟨some 7⟩ = Except.ok ⟨1500000, 2 * 7 + 1500000000, 1500000000⟩ ∧
    buildGasTxOpts ⟨none⟩ = Except.error (mkError
      "RPC did not return baseFeePerGas for the latest block. Cannot build EIP-1559 fees.") :=
  ⟨(buildGasTxOpts_spec ⟨some 7⟩).1 7 rfl, (buildGasTxOpts_spec ⟨none⟩).2 rfl⟩

theorem callCaught_bind {α β : Type} (ev : Event) (r : Except JsErr α)
    (f : Except JsErr α → M β) (s : List Event) :
    (callCaught ev r >>= f) s = f r (s ++ [ev]) := rfl

theorem callE_ok_bind {α β : Type} (ev : Event) (a : α) (f : α → M β) (s : List Event) :
    (callE ev (Except.ok a) >>= f) s = f a (s ++ [ev]) := rfl

theorem callE_error_bind {α β : Type} (ev : Event) (e : JsErr) (f : α → M β) (s : List Event) :
    (callE ev (Except.error e) >>= f) s = (Except.error e, s ++ [ev]) := rfl

theorem emit_bind {β : Type} (e : Event) (f : Unit → M β) (s : List Event) :
    (emit e >>= f) s = f () (s ++ [e]) := rfl

theorem throwM_apply {α : Type} (e : JsErr) (s : List Event) :
    (throwM e : M α) s = (Except.error e, s) := rfl

theorem pure_apply {α : Type} (a : α) (s : List Event) :
    (pure a : M α) s = (Except.ok a, s) := rfl

theorem probeEvents_append (t u : List Event) :
    probeEvents (t ++ u) = probeEvents t + probeEvents u := by
  simp [probeEvents, List.countP_append]

theorem waitedMs_append (t u : List Event) :
    waitedMs (t ++ u) = waitedMs t + waitedMs u := by
  simp [waitedMs]

theorem probeEvents_cons (e : Event) (t : List Event) :
    probeEvents (e :: t) = probeEvents t + (if isProbeEvent e then 1 else 0) := by
  simp [probeEvents, List.countP_cons]

theorem waitedMs_cons (e : Event) (t : List Event) :
    waitedMs (e :: t) = eventWait e + waitedMs t := by
  simp [waitedMs]

theorem probeEvents_pollTrace (ev : Event) (ms : Nat) (h : isProbeEvent ev = true) :
    ∀ n, probeEvents (pollTrace ev ms n) = n := by
  intro n
  induction n with
  | zero => simp [pollTrace, probeEvents]
  | succ n ih =>
    rw [pollTrace, probeEvents_cons, probeEvents_cons, ih, h]
    simp [isProbeEvent]

theorem waitedMs_pollTrace (ev : Event) (ms : Nat) (h : eventWait ev = 0) :
    ∀ n, waitedMs (pollTrace ev ms n) = n * ms := by
  intro n
  induction n with
  | zero => simp [pollTrace, waitedMs]
  | succ n ih =>
    rw [pollTrace, waitedMs_cons, waitedMs_cons, ih, h, Nat.succ_mul]
    simp [eventWait]
    omega

theorem fileAux_step (probe : Nat → Except JsErr FileInfo) (i f : Nat) (s : List Event)
    (h : fileNotYet (probe i) = true) :
    waitForBackendFileReadyAux probe i (f + 1) s =
      waitForBackendFileReadyAux probe (i + 1) f
        (s ++ [Event.indexCall "getFileInfo", Event.wait 5000]) := by
  cases hp : probe i with
  | error e =>
    rw [hp] at h
    simp only [fileNotYet] at h
    simp [waitForBackendFileReadyAux, callCaught_bind, emit_bind, hp, h]
  | ok info =>
    rw [hp] at h
    simp only [fileNotYet, Bool.and_eq_true, Bool.not_eq_true', beq_eq_false_iff_ne] at h
    obtain ⟨⟨⟨ha, hb⟩, hc⟩, hd⟩ := h
    simp [waitForBackendFileReadyAux, callCaught_bind, emit_bind, hp, ha, hb, hc, hd]

theorem fileAux_ready (probe : Nat → Except JsErr FileInfo) (info : FileInfo)
    (hready : info.status = "ready") :
    ∀ n i fuel s, n < fuel → (∀ j, j < n → fileNotYet (probe (i + j)) = true) →
    probe (i + n) = Except.ok info →
    waitForBackendFileReadyAux probe i fuel s =
      (Except.ok info,
       s ++ pollTrace (Event.indexCall "getFileInfo") 5000 n ++ [Event.indexCall "getFileInfo"]) := by
  intro n
  induction n with
  | zero =>
    intro i fuel s hlt hny hp
    cases fuel with
    | zero => omega
    | succ f =>
      have hp' : probe i = Except.ok info := hp
      simp [waitForBackendFileReadyAux, callCaught_bind, hp', hready, pollTrace, pure_apply]
  | succ n ih =>
    intro i fuel s hlt hny hp
    cases fuel with
    | zero => omega
    | succ f =>
      have h0 : fileNotYet (probe i) = true := hny 0 (Nat.succ_pos n)
      rw [fileAux_step probe i f s h0]
      have hrec := ih (i + 1) f (s ++ [Event.indexCall "getFileInfo", Event.wait 5000])
        (by omega)
        (fun j hj => by
          have := hny (j + 1) (by omega)
          rwa [show i + (j + 1) = i + 1 + j by omega] at this)
        (by rwa [show i + 1 + n = i + (n + 1) by omega])
      rw [hrec]
      simp [pollTrace]

theorem fileAux_timeout (probe : Nat → Except JsErr FileInfo) :
    ∀ fuel i s, (∀ j, j < fuel → fileNotYet (probe (i + j)) = true) →
    waitForBackendFileReadyAux probe i fuel s =
      (Except.error (mkError "Timed out waiting for file to be ready"),
       s ++ pollTrace (Event.indexCall "getFileInfo") 5000 fuel) := by
  intro fuel
  induction fuel with
  | zero =>
    intro i s h
    simp [waitForBackendFileReadyAux, throwM_apply, pollTrace]
  | succ f ih =>
    intro i s h
    have h0 : fileNotYet (probe i) = true := h 0 (Nat.succ_pos f)
    rw [fileAux_step probe i f s h0]
    rw [ih (i + 1) (s ++ [Event.indexCall "getFileInfo", Event.wait 5000])
      (fun j hj => by
        have := h (j + 1) (by omega)
        rwa [show i + (j + 1) = i + 1 + j by omega] at this)]
    simp [pollTrace]

theorem fileAux_stop (probe : Nat → Except JsErr FileInfo) (e : JsErr) :
    ∀ n i fuel s, n < fuel → (∀ j, j < n → fileNotYet (probe (i + j)) = true) →
    fileStopError (probe (i + n)) = some e →
    waitForBackendFileReadyAux probe i fuel s =
      (Except.error e,
       s ++ pollTrace (Event.indexCall "getFileInfo") 5000 n ++ [Event.indexCall "getFileInfo"]) := by
  intro n
  induction n with
  | zero =>
    intro i fuel s hlt hny hstop
    cases fuel with
    | zero => omega
    | succ f =>
      cases hp : probe i with
      | error e2 =>
        have hp0 : probe (i + 0) = Except.error e2 := hp
        rw [hp0] at hstop
        simp only [fileStopError] at hstop
        by_cases hnf : isRecordNotFound e2 = true
        · simp [hnf] at hstop
        · simp only [Bool.not_eq_true] at hnf
          simp only [hnf, Bool.false_eq_true, if_false, Option.some.injEq] at hstop
          subst hstop
          simp [waitForBackendFileReadyAux, callCaught_bind, hp, hnf, throwM_apply, pollTrace]
      | ok info =>
        have hp0 : probe (i + 0) = Except.ok info := hp
        rw [hp0] at hstop
        simp only [fileStopError] at hstop
        by_cases h1 : info.status = "ready"
        · rw [if_pos h1] at hstop
          exact Option.noConfusion hstop
        · rw [if_neg h1] at hstop
          by_cases h2 : info.status = "revoked"
          · rw [if_pos h2, Option.some.injEq] at hstop
            subst hstop
            simp [waitForBackendFileReadyAux, callCaught_bind, hp, h1, h2, throwM_apply,
              isRecordNotFound, mkError, pollTrace]
          · rw [if_neg h2] at hstop
            by_cases h3 : info.status = "rejected"
            · rw [if_pos h3, Option.some.injEq] at hstop
              subst hstop
              simp [waitForBackendFileReadyAux, callCaught_bind, hp, h1, h2, h3, throwM_apply,
                isRecordNotFound, mkError, pollTrace]
            · rw [if_neg h3] at hstop
              by_cases h4 : info.status = "expired"
              · rw [if_pos h4, Option.some.injEq] at hstop
                subst hstop
                simp [waitForBackendFileReadyAux, callCaught_bind, hp, h1, h2, h3, h4,
                  throwM_apply, isRecordNotFound, mkError, pollTrace]
              · rw [if_neg h4] at hstop
                exact Option.noConfusion hstop
  | succ n ih =>
    intro i fuel s hlt hny hstop
    cases fuel with
    | zero => omega
    | succ f =>
      have h0 : fileNotYet (probe i) = true := hny 0 (Nat.succ_pos n)
      rw [fileAux_step probe i f s h0]
      have hrec := ih (i + 1) f (s ++ [Event.indexCall "getFileInfo", Event.wait 5000])
        (by omega)
        (fun j hj => by
          have := hny (j + 1) (by omega)
          rwa [show i + (j + 1) = i + 1 + j by omega] at this)
        (by rw [show i + 1 + n = i + (n + 1) by omega]; exact hstop)
      rw [hrec]
      simp [pollTrace]

theorem bucketAux_step (bucketId : String) (probe : Nat → Except JsErr (Option Bucket))
    (i f : Nat) (s : List Event) (h : bucketNotYet (probe i) = true) :
    waitForBackendBucketReadyAux bucketId probe i (f + 1) s =
      waitForBackendBucketReadyAux bucketId probe (i + 1) f
        (s ++ [Event.indexCall "getBucket", Event.wait 2000]) := by
  cases hp : probe i with
  | error e =>
    rw [hp] at h
    simp only [bucketNotYet] at h
    simp [waitForBackendBucketReadyAux, callCaught_bind, emit_bind, hp, h]
  | ok b =>
    rw [hp] at h
    cases b with
    | some bkt => simp [bucketNotYet] at h
    | none =>
      simp [waitForBackendBucketReadyAux, callCaught_bind, emit_bind, hp]

theorem bucketAux_found (bucketId : String) (probe : Nat → Except JsErr (Option Bucket))
    (bkt : Bucket) :
    ∀ n i fuel s, n < fuel → (∀ j, j < n → bucketNotYet (probe (i + j)) = true) →
    probe (i + n) = Except.ok (some bkt) →
    waitForBackendBucketReadyAux bucketId probe i fuel s =
      (Except.ok (),
       s ++ pollTrace (Event.indexCall "getBucket") 2000 n ++ [Event.indexCall "getBucket"]) := by
  intro n
  induction n with
  | zero =>
    intro i fuel s hlt hny hp
    cases fuel with
    | zero => omega
    | succ f =>
      have hp' : probe i = Except.ok (some bkt) := hp
      simp [waitForBackendBucketReadyAux, callCaught_bind, hp', pollTrace, pure_apply]
  | succ n ih =>
    intro i fuel s hlt hny hp
    cases fuel with
    | zero => omega
    | succ f =>
      have h0 : bucketNotYet (probe i) = true := hny 0 (Nat.succ_pos n)
      rw [bucketAux_step bucketId probe i f s h0]
      have hrec := ih (i + 1) f (s ++ [Event.indexCall "getBucket", Event.wait 2000])
        (by omega)
        (fun j hj => by
          have := hny (j + 1) (by omega)
          rwa [show i + (j + 1) = i + 1 + j by omega] at this)
        (by rwa [show i + 1 + n = i + (n + 1) by omega])
      rw [hrec]
      simp [pollTrace]

theorem bucketAux_timeout (bucketId : String) (probe : Nat → Except JsErr (Option Bucket)) :
    ∀ fuel i s, (∀ j, j < fuel → bucketNotYet (probe (i + j)) = true) →
    waitForBackendBucketReadyAux bucketId probe i fuel s =
      (Except.error (mkError ("Bucket " ++ bucketId ++ " not found in MSP backend after waiting")),
       s ++ pollTrace (Event.indexCall "getBucket") 2000 fuel) := by
  intro fuel
  induction fuel with
  | zero =>
    intro i s h
    simp [waitForBackendBucketReadyAux, throwM_apply, pollTrace]
  | succ f ih =>
    intro i s h
    have h0 : bucketNotYet (probe i) = true := h 0 (Nat.succ_pos f)
    rw [bucketAux_step bucketId probe i f s h0]
    rw [ih (i + 1) (s ++ [Event.indexCall "getBucket", Event.wait 2000])
      (fun j hj => by
        have := h (j + 1) (by omega)
        rwa [show i + (j + 1) = i + 1 + j by omega] at this)]
    simp [pollTrace]

theorem bucketAux_stop (bucketId : String) (probe : Nat → Except JsErr (Option Bucket))
    (e : JsErr) (he : isRecordNotFound e = false) :
    ∀ n i fuel s, n < fuel → (∀ j, j < n → bucketNotYet (probe (i + j)) = true) →
    probe (i + n) = Except.error e →
    waitForBackendBucketReadyAux bucketId probe i fuel s =
      (Except.error e,
       s ++ pollTrace (Event.indexCall "getBucket") 2000 n ++ [Event.indexCall "getBucket"]) := by
  intro n
  induction n with
  | zero =>
    intro i fuel s hlt hny hp
    cases fuel with
    | zero => omega
    | succ f =>
      have hp' : probe i = Except.error e := hp
      simp [waitForBackendBucketReadyAux, callCaught_bind, hp', he, throwM_apply, pollTrace]
  | succ n ih =>
    intro i fuel s hlt hny hp
    cases fuel with
    | zero => omega
    | succ f =>
      have h0 : bucketNotYet (probe i) = true := hny 0 (Nat.succ_pos n)
      rw [bucketAux_step bucketId probe i f s h0]
      have hrec := ih (i + 1) f (s ++ [Event.indexCall "getBucket", Event.wait 2000])
        (by omega)
        (fun j hj => by
          have := hny (j + 1) (by omega)
          rwa [show i + (j + 1) = i + 1 + j by omega] at this)
        (by rwa [show i + 1 + n = i + (n + 1) by omega])
      rw [hrec]
      simp [pollTrace]

theorem confirmAux_step (fileKey : String) (probe : Nat → Option StorageRequestData)
    (i f : Nat) (s : List Event) (h : confirmNotYet (probe i) = true) :
    waitForMSPConfirmOnChainAux fileKey probe i (f + 1) s =
      waitForMSPConfirmOnChainAux fileKey probe (i + 1) f
        (s ++ [Event.chainQuery "storageRequests", Event.wait 2000]) := by
  cases hp : probe i with
  | none =>
    rw [hp] at h
    simp [confirmNotYet] at h
  | some d =>
    rw [hp] at h
    simp only [confirmNotYet, Bool.not_eq_true', srConfirmed] at h
    cases hd : d.msp with
    | none =>
      simp [waitForMSPConfirmOnChainAux, callE_ok_bind, emit_bind, hp, hd]
    | some mspTuple =>
      rw [hd] at h
      simp only [] at h
      simp [waitForMSPConfirmOnChainAux, callE_ok_bind, emit_bind, hp, hd, h]

theorem confirmAux_confirmed (fileKey : String) (probe : Nat → Option StorageRequestData)
    (d : StorageRequestData) (hconf : srConfirmed d = true) :
    ∀ n i fuel s, n < fuel → (∀ j, j < n → confirmNotYet (probe (i + j)) = true) →
    probe (i + n) = some d →
    waitForMSPConfirmOnChainAux fileKey probe i fuel s =
      (Except.ok (),
       s ++ pollTrace (Event.chainQuery "storageRequests") 2000 n ++
         [Event.chainQuery "storageRequests"]) := by
  intro n
  induction n with
  | zero =>
    intro i fuel s hlt hny hp
    cases fuel with
    | zero => omega
    | succ f =>
      have hp' : probe i = some d := hp
      simp only [srConfirmed] at hconf
      cases hd : d.msp with
      | none => rw [hd] at hconf; exact Bool.noConfusion hconf
      | some mspTuple =>
        rw [hd] at hconf
        simp only [] at hconf
        simp [waitForMSPConfirmOnChainAux, callE_ok_bind, hp', srConfirmed, hd, hconf,
          pollTrace, pure_apply]
  | succ n ih =>
    intro i fuel s hlt hny hp
    cases fuel with
    | zero => omega
    | succ f =>
      have h0 : confirmNotYet (probe i) = true := hny 0 (Nat.succ_pos n)
      rw [confirmAux_step fileKey probe i f s h0]
      have hrec := ih (i + 1) f (s ++ [Event.chainQuery "storageRequests", Event.wait 2000])
        (by omega)
        (fun j hj => by
          have := hny (j + 1) (by omega)
          rwa [show i + (j + 1) = i + 1 + j by omega] at this)
        (by rwa [show i + 1 + n = i + (n + 1) by omega])
      rw [hrec]
      simp [pollTrace]

theorem confirmAux_timeout (fileKey : String) (probe : Nat → Option StorageRequestData) :
    ∀ fuel i s, (∀ j, j < fuel → confirmNotYet (probe (i + j)) = true) →
    waitForMSPConfirmOnChainAux fileKey probe i fuel s =
      (Except.error (mkError ("FileKey " ++ fileKey ++ " not confirmed by MSP after waiting")),
       s ++ pollTrace (Event.chainQuery "storageRequests") 2000 fuel) := by
  intro fuel
  induction fuel with
  | zero =>
    intro i s h
    simp [waitForMSPConfirmOnChainAux, throwM_apply, pollTrace]
  | succ f ih =>
    intro i s h
    have h0 : confirmNotYet (probe i) = true := h 0 (Nat.succ_pos f)
    rw [confirmAux_step fileKey probe i f s h0]
    rw [ih (i + 1) (s ++ [Event.chainQuery "storageRequests", Event.wait 2000])
      (fun j hj => by
        have := h (j + 1) (by omega)
        rwa [show i + (j + 1) = i + 1 + j by omega] at this)]
    simp [pollTrace]

theorem confirmAux_absent (fileKey : String) (probe : Nat → Option StorageRequestData) :
    ∀ n i fuel s, n < fuel → (∀ j, j < n → confirmNotYet (probe (i + j)) = true) →
    probe (i + n) = none →
    waitForMSPConfirmOnChainAux fileKey probe i fuel s =
      (Except.error (mkError ("StorageRequest for " ++ fileKey ++ " no longer exists on-chain.")),
       s ++ pollTrace (Event.chainQuery "storageRequests") 2000 n ++
         [Event.chainQuery "storageRequests"]) := by
  intro n
  induction n with
  | zero =>
    intro i fuel s hlt hny hp
    cases fuel with
    | zero => omega
    | succ f =>
      have hp' : probe i = none := hp
      simp [waitForMSPConfirmOnChainAux, callE_ok_bind, hp', throwM_apply, pollTrace]
  | succ n ih =>
    intro i fuel s hlt hny hp
    cases fuel with
    | zero => omega
    | succ f =>
      have h0 : confirmNotYet (probe i) = true := hny 0 (Nat.succ_pos n)
      rw [confirmAux_step fileKey probe i f s h0]
      have hrec := ih (i + 1) f (s ++ [Event.chainQuery "storageRequests", Event.wait 2000])
        (by omega)
        (fun j hj => by
          have := hny (j + 1) (by omega)
          rwa [show i + (j + 1) = i + 1 + j by omega] at this)
        (by rwa [show i + 1 + n = i + (n + 1) by omega])
      rw [hrec]
      simp [pollTrace]

theorem pollRun_counts (ev : Event) (ms n : Nat) (h : isProbeEvent ev = true)
    (h0 : eventWait ev = 0) :
    probeEvents (pollTrace ev ms n ++ [ev]) = n + 1 ∧
    waitedMs (pollTrace ev ms n ++ [ev]) = n * ms := by
  constructor
  · rw [probeEvents_append, probeEvents_pollTrace ev ms h n]
    simp [probeEvents, List.countP_cons, h]
  · rw [waitedMs_append, waitedMs_pollTrace ev ms h0 n]
    simp [waitedMs, h0]

/-- Claim C3: for each bounded polling function, if the probed condition is
not yet visible for the first `n` probes (`n` strictly below the function's
`maxAttempts`: 60 for `waitForBackendFileReady`, 10 for
`waitForBackendBucketReady` and `waitForMSPConfirmOnChain`) and satisfied on
the next probe, the function returns success after exactly `n + 1` probe
invocations, having waited exactly `n` times its configured interval
(5000 ms, 2000 ms, 2000 ms respectively). -/
theorem poll_success_after_n_probes
    (fprobe : Nat → Except JsErr FileInfo) (bprobe : Nat → Except JsErr (Option Bucket))
    (cprobe : Nat → Option StorageRequestData)
    (bucketId fileKey : String) (s : List Event)
    (info : FileInfo) (bkt : Bucket) (d : StorageRequestData)
    (nf nb nc : Nat) (hnf : nf < 60) (hnb : nb < 10) (hnc : nc < 10)
    (hfn : ∀ j, j < nf → fileNotYet (fprobe j) = true)
    (hfs : fprobe nf = Except.ok info) (hready : info.status = "ready")
    (hbn : ∀ j, j < nb → bucketNotYet (bprobe j) = true)
    (hbs : bprobe nb = Except.ok (some bkt))
    (hcn : ∀ j, j < nc → confirmNotYet (cprobe j) = true)
    (hcs : cprobe nc = some d) (hconf : srConfirmed d = true) :
    (∃ t, waitForBackendFileReady fprobe s = (Except.ok info, s ++ t) ∧
      probeEvents t = nf + 1 ∧ waitedMs t = nf * 5000) ∧
    (∃ t, waitForBackendBucketReady bucketId bprobe s = (Except.ok (), s ++ t) ∧
      probeEvents t = nb + 1 ∧ waitedMs t = nb * 2000) ∧
    (∃ t, waitForMSPConfirmOnChain fileKey cprobe s = (Except.ok (), s ++ t) ∧
      probeEvents t = nc + 1 ∧ waitedMs t = nc * 2000) := by
  refine ⟨⟨pollTrace (Event.indexCall "getFileInfo") 5000 nf ++ [Event.indexCall "getFileInfo"], ?_, ?_, ?_⟩,
    ⟨pollTrace (Event.indexCall "getBucket") 2000 nb ++ [Event.indexCall "getBucket"], ?_, ?_, ?_⟩,
    ⟨pollTrace (Event.chainQuery "storageRequests") 2000 nc ++ [Event.chainQuery "storageRequests"], ?_, ?_, ?_⟩⟩
  · rw [waitForBackendFileReady,
      fileAux_ready fprobe info hready nf 0 60 s hnf
        (fun j hj => by rw [Nat.zero_add]; exact hfn j hj)
        (by rw [Nat.zero_add]; exact hfs)]
    simp
  · exact (pollRun_counts (Event.indexCall "getFileInfo") 5000 nf rfl rfl).1
  · exact (pollRun_counts (Event.indexCall "getFileInfo") 5000 nf rfl rfl).2
  · rw [waitForBackendBucketReady,
      bucketAux_found bucketId bprobe bkt nb 0 10 s hnb
        (fun j hj => by rw [Nat.zero_add]; exact hbn j hj)
        (by rw [Nat.zero_add]; exact hbs)]
    simp
  · exact (pollRun_counts (Event.indexCall "getBucket") 2000 nb rfl rfl).1
  · exact (pollRun_counts (Event.indexCall "getBucket") 2000 nb rfl rfl).2
  · rw [waitForMSPConfirmOnChain,
      confirmAux_confirmed fileKey cprobe d hconf nc 0 10 s hnc
        (fun j hj => by rw [Nat.zero_add]; exact hcn j hj)
        (by rw [Nat.zero_add]; exact hcs)]
    simp
  · exact (pollRun_counts (Event.chainQuery "storageRequests") 2000 nc rfl rfl).1
  · exact (pollRun_counts (Event.chainQuery "storageRequests") 2000 nc rfl rfl).2

/-- Witness for C3: each poller succeeds on the second probe (one
not-yet-visible probe, then a satisfied probe), after exactly 2 probe
invocations and one interval of waiting. -/
theorem poll_success_after_n_probes_witness :
    (∃ t, waitForBackendFileReady
        (fun j => if j = 0 then Except.error ⟨none, some 404, none⟩ else Except.ok ⟨"ready"⟩) [] =
        (Except.ok ⟨"ready"⟩, [] ++ t) ∧ probeEvents t = 1 + 1 ∧ waitedMs t = 1 * 5000) ∧
    (∃ t, waitForBackendBucketReady "b1"
        (fun j => if j = 0 then Except.ok none else Except.ok (some ⟨"b1"⟩)) [] =
        (Except.ok (), [] ++ t) ∧ probeEvents t = 1 + 1 ∧ waitedMs t = 1 * 2000) ∧
    (∃ t, waitForMSPConfirmOnChain "fk"
        (fun j => if j = 0 then some ⟨some ("m", false)⟩ else some ⟨some ("m", true)⟩) [] =
        (Except.ok (), [] ++ t) ∧ probeEvents t = 1 + 1 ∧ waitedMs t = 1 * 2000) :=
  poll_success_after_n_probes
    (fun j => if j = 0 then Except.error ⟨none, some 404, none⟩ else Except.ok ⟨"ready"⟩)
    (fun j => if j = 0 then Except.ok none else Except.ok (some ⟨"b1"⟩))
    (fun j => if j = 0 then some ⟨some ("m", false)⟩ else some ⟨some ("m", true)⟩)
    "b1" "fk" [] ⟨"ready"⟩ ⟨"b1"⟩ ⟨some ("m", true)⟩ 1 1 1
    (by decide) (by decide) (by decide)
    (by decide) rfl rfl
    (by decide) rfl
    (by decide) rfl rfl

/-- Claim C4: for each bounded polling function, if all `maxAttempts` probes
report the condition as not yet satisfied, the function fails with its
timeout error after exactly `maxAttempts` probes and never returns success;
the timeout errors are distinct from the definitive-failure errors the
pollers throw (terminal file statuses; on-chain record disappearance). -/
theorem poll_timeout_after_max_attempts
    (fprobe : Nat → Except JsErr FileInfo) (bprobe : Nat → Except JsErr (Option Bucket))
    (cprobe : Nat → Option StorageRequestData)
    (bucketId fileKey : String) (s : List Event) :
    ((∀ j, j < 60 → fileNotYet (fprobe j) = true) →
      ∃ t, waitForBackendFileReady fprobe s =
        (Except.error (mkError "Timed out waiting for file to be ready"), s ++ t) ∧
        probeEvents t = 60) ∧
    ((∀ j, j < 10 → bucketNotYet (bprobe j) = true) →
      ∃ t, waitForBackendBucketReady bucketId bprobe s =
        (Except.error (mkError ("Bucket " ++ bucketId ++ " not found in MSP backend after waiting")),
         s ++ t) ∧ probeEvents t = 10) ∧
    ((∀ j, j < 10 → confirmNotYet (cprobe j) = true) →
      ∃ t, waitForMSPConfirmOnChain fileKey cprobe s =
        (Except.error (mkError ("FileKey " ++ fileKey ++ " not confirmed by MSP after waiting")),
         s ++ t) ∧ probeEvents t = 10) ∧
    (mkError "Timed out waiting for file to be ready" ≠ mkError "File upload was cancelled by user" ∧
     mkError "Timed out waiting for file to be ready" ≠ mkError "File upload was rejected by MSP" ∧
     mkError "Timed out waiting for file to be ready" ≠ mkError "Storage request expired") ∧
    mkError ("FileKey " ++ fileKey ++ " not confirmed by MSP after waiting") ≠
      mkError ("StorageRequest for " ++ fileKey ++ " no longer exists on-chain.") := by
  refine ⟨?_, ?_, ?_, by decide, ?_⟩
  · intro hfn
    refine ⟨pollTrace (Event.indexCall "getFileInfo") 5000 60, ?_, ?_⟩
    · rw [waitForBackendFileReady,
        fileAux_timeout fprobe 60 0 s (fun j hj => by rw [Nat.zero_add]; exact hfn j hj)]
    · exact probeEvents_pollTrace (Event.indexCall "getFileInfo") 5000 rfl 60
  · intro hbn
    refine ⟨pollTrace (Event.indexCall "getBucket") 2000 10, ?_, ?_⟩
    · rw [waitForBackendBucketReady,
        bucketAux_timeout bucketId bprobe 10 0 s (fun j hj => by rw [Nat.zero_add]; exact hbn j hj)]
    · exact probeEvents_pollTrace (Event.indexCall "getBucket") 2000 rfl 10
  · intro hcn
    refine ⟨pollTrace (Event.chainQuery "storageRequests") 2000 10, ?_, ?_⟩
    · rw [waitForMSPConfirmOnChain,
        confirmAux_timeout fileKey cprobe 10 0 s (fun j hj => by rw [Nat.zero_add]; exact hcn j hj)]
    · exact probeEvents_pollTrace (Event.chainQuery "storageRequests") 2000 rfl 10
  · intro h
    have h2 : "FileKey " ++ fileKey ++ " not confirmed by MSP after waiting" =
        "StorageRequest for " ++ fileKey ++ " no longer exists on-chain." := by
      simpa [mkError, JsErr.mk.injEq] using h
    have h3 := congrArg String.length h2
    rw [String.length_append, String.length_append, String.length_append,
      String.length_append] at h3
    have l1 : ("FileKey " : String).length = 8 := rfl
    have l2 : (" not confirmed by MSP after waiting" : String).length = 35 := rfl
    have l3 : ("StorageRequest for " : String).length = 19 := rfl
    have l4 : (" no longer exists on-chain." : String).length = 27 := rfl
    rw [l1, l2, l3, l4] at h3
    omega

/-- Witness for C4: every probe reports not-yet-visible (a 404 for the file
poller, a falsy bucket for the bucket poller, an unconfirmed record for the
chain poller), so each poller times out after its full attempt budget. -/
theorem poll_timeout_after_max_attempts_witness :
    (∃ t, waitForBackendFileReady (fun _ => Except.error ⟨none, some 404, none⟩) [] =
        (Except.error (mkError "Timed out waiting for file to be ready"), [] ++ t) ∧
        probeEvents t = 60) ∧
    (∃ t, waitForBackendBucketReady "b1" (fun _ => Except.ok none) [] =
        (Except.error (mkError ("Bucket " ++ "b1" ++ " not found in MSP backend after waiting")),
         [] ++ t) ∧ probeEvents t = 10) ∧
    (∃ t, waitForMSPConfirmOnChain "fk" (fun _ => some ⟨some ("m", false)⟩) [] =
        (Except.error (mkError ("FileKey " ++ "fk" ++ " not confirmed by MSP after waiting")),
         [] ++ t) ∧ probeEvents t = 10) ∧
    mkError ("FileKey " ++ "fk" ++ " not confirmed by MSP after waiting") ≠
      mkError ("StorageRequest for " ++ "fk" ++ " no longer exists on-chain.") := by
  have h := poll_timeout_after_max_attempts (fun _ => Except.error ⟨none, some 404, none⟩)
    (fun _ => Except.ok none) (fun _ => some ⟨some ("m", false)⟩) "b1" "fk" []
  exact ⟨h.1 (by decide), h.2.1 (by decide), h.2.2.1 (by decide), h.2.2.2.2⟩

/-- Claim C5: a definitive failure observed by a probe stops polling at once
with a propagated failure and no further probe invocations: in
`waitForBackendFileReady` the statuses `revoked`, `rejected` and `expired`
each throw their own distinct error after exactly `n + 1` probes, and in
`waitForMSPConfirmOnChain` an absent on-chain record throws immediately. -/
theorem poll_definitive_failure_stops
    (fprobe : Nat → Except JsErr FileInfo) (cprobe : Nat → Option StorageRequestData)
    (fileKey : String) (s : List Event) (n m : Nat) (info : FileInfo)
    (hn : n < 60) (hfn : ∀ j, j < n → fileNotYet (fprobe j) = true)
    (hfs : fprobe n = Except.ok info)
    (hm : m < 10) (hcn : ∀ j, j < m → confirmNotYet (cprobe j) = true)
    (hcs : cprobe m = none) :
    (info.status = "revoked" →
      ∃ t, waitForBackendFileReady fprobe s =
        (Except.error (mkError "File upload was cancelled by user"), s ++ t) ∧
        probeEvents t = n + 1) ∧
    (info.status = "rejected" →
      ∃ t, waitForBackendFileReady fprobe s =
        (Except.error (mkError "File upload was rejected by MSP"), s ++ t) ∧
        probeEvents t = n + 1) ∧
    (info.status = "expired" →
      ∃ t, waitForBackendFileReady fprobe s =
        (Except.error (mkError "Storage request expired"), s ++ t) ∧
        probeEvents t = n + 1) ∧
    (mkError "File upload was cancelled by user" ≠ mkError "File upload was rejected by MSP" ∧
     mkError "File upload was cancelled by user" ≠ mkError "Storage request expired" ∧
     mkError "File upload was rejected by MSP" ≠ mkError "Storage request expired") ∧
    (∃ t, waitForMSPConfirmOnChain fileKey cprobe s =
      (Except.error (mkError ("StorageRequest for " ++ fileKey ++ " no longer exists on-chain.")),
       s ++ t) ∧ probeEvents t = m + 1) := by
  refine ⟨?_, ?_, ?_, by decide, ?_⟩
  · intro hst
    refine ⟨pollTrace (Event.indexCall "getFileInfo") 5000 n ++ [Event.indexCall "getFileInfo"],
      ?_, (pollRun_counts (Event.indexCall "getFileInfo") 5000 n rfl rfl).1⟩
    rw [waitForBackendFileReady,
      fileAux_stop fprobe (mkError "File upload was cancelled by user") n 0 60 s hn
        (fun j hj => by rw [Nat.zero_add]; exact hfn j hj)
        (by rw [Nat.zero_add, hfs]; simp [fileStopError, hst])]
    simp
  · intro hst
    refine ⟨pollTrace (Event.indexCall "getFileInfo") 5000 n ++ [Event.indexCall "getFileInfo"],
      ?_, (pollRun_counts (Event.indexCall "getFileInfo") 5000 n rfl rfl).1⟩
    rw [waitForBackendFileReady,
      fileAux_stop fprobe (mkError "File upload was rejected by MSP") n 0 60 s hn
        (fun j hj => by rw [Nat.zero_add]; exact hfn j hj)
        (by rw [Nat.zero_add, hfs]; simp [fileStopError, hst])]
    simp
  · intro hst
    refine ⟨pollTrace (Event.indexCall "getFileInfo") 5000 n ++ [Event.indexCall "getFileInfo"],
      ?_, (pollRun_counts (Event.indexCall "getFileInfo") 5000 n rfl rfl).1⟩
    rw [waitForBackendFileReady,
      fileAux_stop fprobe (mkError "Storage request expired") n 0 60 s hn
        (fun j hj => by rw [Nat.zero_add]; exact hfn j hj)
        (by rw [Nat.zero_add, hfs]; simp [fileStopError, hst])]
    simp
  · refine ⟨pollTrace (Event.chainQuery "storageRequests") 2000 m ++
      [Event.chainQuery "storageRequests"],
      ?_, (pollRun_counts (Event.chainQuery "storageRequests") 2000 m rfl rfl).1⟩
    rw [waitForMSPConfirmOnChain,
      confirmAux_absent fileKey cprobe m 0 10 s hm
        (fun j hj => by rw [Nat.zero_add]; exact hcn j hj)
        (by rw [Nat.zero_add]; exact hcs)]
    simp

/-- Witness for C5: a `revoked` status on the very first probe stops the file
poller immediately (and its siblings via re-instantiation at `rejected` and
`expired`), and an absent record stops the chain poller on its first probe. -/
theorem poll_definitive_failure_stops_witness :
    (∃ t, waitForBackendFileReady (fun _ => Except.ok ⟨"revoked"⟩) [] =
        (Except.error (mkError "File upload was cancelled by user"), [] ++ t) ∧
        probeEvents t = 0 + 1) ∧
    (∃ t, waitForBackendFileReady (fun _ => Except.ok ⟨"rejected"⟩) [] =
        (Except.error (mkError "File upload was rejected by MSP"), [] ++ t) ∧
        probeEvents t = 0 + 1) ∧
    (∃ t, waitForBackendFileReady (fun _ => Except.ok ⟨"expired"⟩) [] =
        (Except.error (mkError "Storage request expired"), [] ++ t) ∧
        probeEvents t = 0 + 1) ∧
    (∃ t, waitForMSPConfirmOnChain "fk" (fun _ => none) [] =
        (Except.error (mkError ("StorageRequest for " ++ "fk" ++ " no longer exists on-chain.")),
         [] ++ t) ∧ probeEvents t = 0 + 1) := by
  have h1 := poll_definitive_failure_stops (fun _ => Except.ok ⟨"revoked"⟩) (fun _ => none)
    "fk" [] 0 0 ⟨"revoked"⟩ (by decide) (by decide) rfl (by decide) (by decide) rfl
  have h2 := poll_definitive_failure_stops (fun _ => Except.ok ⟨"rejected"⟩) (fun _ => none)
    "fk" [] 0 0 ⟨"rejected"⟩ (by decide) (by decide) rfl (by decide) (by decide) rfl
  have h3 := poll_definitive_failure_stops (fun _ => Except.ok ⟨"expired"⟩) (fun _ => none)
    "fk" [] 0 0 ⟨"expired"⟩ (by decide) (by decide) rfl (by decide) (by decide) rfl
  exact ⟨h1.1 rfl, h2.2.1 rfl, h3.2.2.1 rfl, h1.2.2.2.2⟩

/-- Claim C6: during backend-index polling, a probe error classified as
record-not-found (HTTP 404 or body error `Not found: Record`) is treated as
not-yet-visible and the loop continues into its interval wait; any other probe
error is propagated immediately after exactly the probes made so far; and
when every probe up to `maxAttempts` errors as record-not-found the result is
the timeout error, so absence alone never fails the poll early. -/
theorem poll_notFound_is_notYetVisible
    (fprobe : Nat → Except JsErr FileInfo) (bprobe : Nat → Except JsErr (Option Bucket))
    (bucketId : String) (s : List Event) :
    (∀ e i f, isRecordNotFound e = true → fprobe i = Except.error e →
      waitForBackendFileReadyAux fprobe i (f + 1) s =
        waitForBackendFileReadyAux fprobe (i + 1) f
          (s ++ [Event.indexCall "getFileInfo", Event.wait 5000])) ∧
    (∀ e i f, isRecordNotFound e = true → bprobe i = Except.error e →
      waitForBackendBucketReadyAux bucketId bprobe i (f + 1) s =
        waitForBackendBucketReadyAux bucketId bprobe (i + 1) f
          (s ++ [Event.indexCall "getBucket", Event.wait 2000])) ∧
    (∀ e n, n < 60 → (∀ j, j < n → fileNotYet (fprobe j) = true) →
      fprobe n = Except.error e → isRecordNotFound e = false →
      ∃ t, waitForBackendFileReady fprobe s = (Except.error e, s ++ t) ∧
        probeEvents t = n + 1) ∧
    (∀ e n, n < 10 → (∀ j, j < n → bucketNotYet (bprobe j) = true) →
      bprobe n = Except.error e → isRecordNotFound e = false →
      ∃ t, waitForBackendBucketReady bucketId bprobe s = (Except.error e, s ++ t) ∧
        probeEvents t = n + 1) ∧
    ((∀ j, j < 60 → ∃ ej, fprobe j = Except.error ej ∧ isRecordNotFound ej = true) →
      ∃ t, waitForBackendFileReady fprobe s =
        (Except.error (mkError "Timed out waiting for file to be ready"), s ++ t) ∧
        probeEvents t = 60) ∧
    ((∀ j, j < 10 → ∃ ej, bprobe j = Except.error ej ∧ isRecordNotFound ej = true) →
      ∃ t, waitForBackendBucketReady bucketId bprobe s =
        (Except.error (mkError ("Bucket " ++ bucketId ++ " not found in MSP backend after waiting")),
         s ++ t) ∧ probeEvents t = 10) := by
  refine ⟨?_, ?_, ?_, ?_, ?_, ?_⟩
  · intro e i f he hp
    exact fileAux_step fprobe i f s (by rw [hp]; simpa [fileNotYet] using he)
  · intro e i f he hp
    exact bucketAux_step bucketId bprobe i f s (by rw [hp]; simpa [bucketNotYet] using he)
  · intro e n hn hny hp he
    refine ⟨pollTrace (Event.indexCall "getFileInfo") 5000 n ++ [Event.indexCall "getFileInfo"],
      ?_, (pollRun_counts (Event.indexCall "getFileInfo") 5000 n rfl rfl).1⟩
    rw [waitForBackendFileReady,
      fileAux_stop fprobe e n 0 60 s hn
        (fun j hj => by rw [Nat.zero_add]; exact hny j hj)
        (by rw [Nat.zero_add, hp]; simp [fileStopError, he])]
    simp
  · intro e n hn hny hp he
    refine ⟨pollTrace (Event.indexCall "getBucket") 2000 n ++ [Event.indexCall "getBucket"],
      ?_, (pollRun_counts (Event.indexCall "getBucket") 2000 n rfl rfl).1⟩
    rw [waitForBackendBucketReady,
      bucketAux_stop bucketId bprobe e he n 0 10 s hn
        (fun j hj => by rw [Nat.zero_add]; exact hny j hj)
        (by rw [Nat.zero_add]; exact hp)]
    simp
  · intro hall
    refine ⟨pollTrace (Event.indexCall "getFileInfo") 5000 60, ?_,
      probeEvents_pollTrace (Event.indexCall "getFileInfo") 5000 rfl 60⟩
    rw [waitForBackendFileReady,
      fileAux_timeout fprobe 60 0 s (fun j hj => by
        obtain ⟨ej, hej, hnf⟩ := hall j hj
        rw [Nat.zero_add, hej]
        simpa [fileNotYet] using hnf)]
  · intro hall
    refine ⟨pollTrace (Event.indexCall "getBucket") 2000 10, ?_,
      probeEvents_pollTrace (Event.indexCall "getBucket") 2000 rfl 10⟩
    rw [waitForBackendBucketReady,
      bucketAux_timeout bucketId bprobe 10 0 s (fun j hj => by
        obtain ⟨ej, hej, hnf⟩ := hall j hj
        rw [Nat.zero_add, hej]
        simpa [bucketNotYet] using hnf)]

/-- Witness for C6: a 404 probe error makes both backend pollers continue one
step; a 500-style probe error is propagated from the first probe; sixty
(resp. ten) consecutive 404s end in the timeout error. -/
theorem poll_notFound_is_notYetVisible_witness :
    (waitForBackendFileReadyAux (fun _ => Except.error ⟨none, some 404, none⟩) 0 (3 + 1) [] =
      waitForBackendFileReadyAux (fun _ => Except.error ⟨none, some 404, none⟩) (0 + 1) 3
        ([] ++ [Event.indexCall "getFileInfo", Event.wait 5000])) ∧
    (waitForBackendBucketReadyAux "b1" (fun _ => Except.error ⟨none, some 404, none⟩) 0 (3 + 1) [] =
      waitForBackendBucketReadyAux "b1" (fun _ => Except.error ⟨none, some 404, none⟩) (0 + 1) 3
        ([] ++ [Event.indexCall "getBucket", Event.wait 2000])) ∧
    (∃ t, waitForBackendFileReady (fun _ => Except.error ⟨some "boom", some 500, none⟩) [] =
      (Except.error ⟨some "boom", some 500, none⟩, [] ++ t) ∧ probeEvents t = 0 + 1) ∧
    (∃ t, waitForBackendBucketReady "b1" (fun _ => Except.error ⟨some "boom", some 500, none⟩) [] =
      (Except.error ⟨some "boom", some 500, none⟩, [] ++ t) ∧ probeEvents t = 0 + 1) ∧
    (∃ t, waitForBackendFileReady (fun _ => Except.error ⟨none, some 404, none⟩) [] =
      (Except.error (mkError "Timed out waiting for file to be ready"), [] ++ t) ∧
      probeEvents t = 60) ∧
    (∃ t, waitForBackendBucketReady "b1" (fun _ => Except.error ⟨none, some 404, none⟩) [] =
      (Except.error (mkError ("Bucket " ++ "b1" ++ " not found in MSP backend after waiting")),
       [] ++ t) ∧ probeEvents t = 10) := by
  have h404 := poll_notFound_is_notYetVisible (fun _ => Except.error ⟨none, some 404, none⟩)
    (fun _ => Except.error ⟨none, some 404, none⟩) "b1" []
  have hboom := poll_notFound_is_notYetVisible (fun _ => Except.error ⟨some "boom", some 500, none⟩)
    (fun _ => Except.error ⟨some "boom", some 500, none⟩) "b1" []
  refine ⟨h404.1 ⟨none, some 404, none⟩ 0 3 (by decide) rfl,
    h404.2.1 ⟨none, some 404, none⟩ 0 3 (by decide) rfl,
    hboom.2.2.1 ⟨some "boom", some 500, none⟩ 0 (by decide) (by decide) rfl (by decide),
    hboom.2.2.2.1 ⟨some "boom", some 500, none⟩ 0 (by decide) (by decide) rfl (by decide),
    h404.2.2.2.2.1 (fun j hj => ⟨⟨none, some 404, none⟩, rfl, by decide⟩),
    h404.2.2.2.2.2 (fun j hj => ⟨⟨none, some 404, none⟩, rfl, by decide⟩)⟩

theorem createBucket_ok_receipt (env : CreateBucketEnv) (bucketName : String) (s : List Event)
    (v : String × Receipt) (t : List Event)
    (h : createBucket env bucketName s = (Except.ok v, t)) :
    ∃ txHash r, env.createBucketTx = Except.ok (some txHash) ∧
      env.receipt txHash = Except.ok r ∧ r.status = "success" := by
  unfold createBucket at h
  cases ha : env.address with
  | none => rw [ha] at h; simp [throwM_apply] at h
  | some address =>
    rw [ha] at h
    simp only [] at h
    cases hmi : env.mspInfo with
    | error e => rw [hmi] at h; simp [callE_error_bind] at h
    | ok info =>
      rw [hmi] at h
      rw [callE_ok_bind] at h
      cases hvp : env.valueProps with
      | error e => rw [hvp] at h; simp [callE_error_bind] at h
      | ok vp =>
        rw [hvp] at h
        rw [callE_ok_bind] at h
        cases hq : env.queryBucketIsEmpty (env.deriveBucketId address bucketName) with
        | error e => rw [hq] at h; simp [callE_error_bind] at h
        | ok isEmpty =>
          rw [hq] at h
          rw [callE_ok_bind] at h
          cases isEmpty with
          | false => simp [throwM_apply] at h
          | true =>
            simp only [Bool.not_true, Bool.false_eq_true, if_false] at h
            cases hgas : buildGasTxOpts env.latestBlock with
            | error e => rw [hgas] at h; simp [callE_error_bind] at h
            | ok gas =>
              rw [hgas] at h
              rw [callE_ok_bind] at h
              cases htx : env.createBucketTx with
              | error e => rw [htx] at h; simp [callE_error_bind] at h
              | ok txOpt =>
                rw [htx] at h
                rw [callE_ok_bind] at h
                cases txOpt with
                | none => simp [throwM_apply] at h
                | some txHash =>
                  simp only [] at h
                  cases hr : env.receipt txHash with
                  | error e => rw [hr] at h; simp [callE_error_bind] at h
                  | ok r =>
                    rw [hr] at h
                    rw [callE_ok_bind] at h
                    by_cases hs : r.status = "success"
                    · exact ⟨txHash, r, rfl, hr, hs⟩
                    · rw [if_pos (by simpa using hs)] at h
                      simp [throwM_apply] at h

theorem createBucket_reverted (env : CreateBucketEnv) (bucketName address : String)
    (info : MspInfo) (vp : String) (fee : Nat) (txHash : String) (r : Receipt) (s : List Event)
    (ha : env.address = some address) (hmi : env.mspInfo = Except.ok info)
    (hvp : env.valueProps = Except.ok vp)
    (hq : env.queryBucketIsEmpty (env.deriveBucketId address bucketName) = Except.ok true)
    (hblk : env.latestBlock.baseFeePerGas = some fee)
    (htx : env.createBucketTx = Except.ok (some txHash))
    (hr : env.receipt txHash = Except.ok r) (hs : r.status ≠ "success") :
    createBucket env bucketName s =
      (Except.error (mkError ("Bucket creation failed: " ++ txHash)),
       s ++ [Event.indexCall "getInfo", Event.indexCall "getValuePropositions",
         Event.chainQuery "buckets", Event.chainQuery "getBlock",
         Event.txSubmit "createBucket", Event.receiptWait]) := by
  unfold createBucket
  rw [ha]
  simp [callE_ok_bind, hmi, hvp, hq, htx, hr, hs, buildGasTxOpts, hblk, throwM_apply]

theorem deleteBucket_ok_receipt (env : DeleteBucketEnv) (bucketId : String) (s : List Event)
    (v : Bool) (t : List Event)
    (h : deleteBucket env bucketId s = (Except.ok v, t)) :
    ∃ txHash r, env.deleteBucketTx = Except.ok (some txHash) ∧
      env.receipt txHash = Except.ok r ∧ r.status = "success" := by
  unfold deleteBucket at h
  cases hgas : buildGasTxOpts env.latestBlock with
  | error e => rw [hgas] at h; simp [callE_error_bind] at h
  | ok gas =>
    rw [hgas] at h
    rw [callE_ok_bind] at h
    cases htx : env.deleteBucketTx with
    | error e => rw [htx] at h; simp [callE_error_bind] at h
    | ok txOpt =>
      rw [htx] at h
      rw [callE_ok_bind] at h
      cases txOpt with
      | none => simp [throwM_apply] at h
      | some txHash =>
        simp only [] at h
        cases hr : env.receipt txHash with
        | error e => rw [hr] at h; simp [callE_error_bind] at h
        | ok r =>
          rw [hr] at h
          rw [callE_ok_bind] at h
          by_cases hs : r.status = "success"
          · exact ⟨txHash, r, rfl, hr, hs⟩
          · rw [if_pos (by simpa using hs)] at h
            simp [throwM_apply] at h

theorem deleteBucket_reverted (env : DeleteBucketEnv) (bucketId : String)
    (fee : Nat) (txHash : String) (r : Receipt) (s : List Event)
    (hblk : env.latestBlock.baseFeePerGas = some fee)
    (htx : env.deleteBucketTx = Except.ok (some txHash))
    (hr : env.receipt txHash = Except.ok r) (hs : r.status ≠ "success") :
    deleteBucket env bucketId s =
      (Except.error (mkError ("Bucket deletion failed: " ++ txHash)),
       s ++ [Event.chainQuery "getBlock", Event.txSubmit "deleteBucket",
         Event.receiptWait]) := by
  unfold deleteBucket
  simp [callE_ok_bind, htx, hr, hs, buildGasTxOpts, hblk, throwM_apply]

theorem deleteBucket_success (env : DeleteBucketEnv) (bucketId : String)
    (fee : Nat) (txHash : String) (r : Receipt) (s : List Event)
    (hblk : env.latestBlock.baseFeePerGas = some fee)
    (htx : env.deleteBucketTx = Except.ok (some txHash))
    (hr : env.receipt txHash = Except.ok r) (hs : r.status = "success") :
    deleteBucket env bucketId s =
      (Except.ok true,
       s ++ [Event.chainQuery "getBlock", Event.txSubmit "deleteBucket",
         Event.receiptWait]) := by
  unfold deleteBucket
  simp [callE_ok_bind, htx, hr, hs, buildGasTxOpts, hblk, pure_apply]

theorem maybeAuthenticate_bind {β : Type} (isAuth : Bool) (r : Except JsErr Unit)
    (f : Unit → M β) (s : List Event) :
    (maybeAuthenticate isAuth r >>= f) s =
      if isAuth then f () s
      else
        match r with
        | Except.ok _ => f () (s ++ [Event.authCall])
        | Except.error e => (Except.error e, s ++ [Event.authCall]) := by
  cases isAuth with
  | true => rfl
  | false => cases r with
    | ok a => rfl
    | error e => rfl

theorem uploadFile_ok_receipt (env : UploadFileEnv) (bucketId fileName : String)
    (s : List Event) (v : String × UploadReceipt) (t : List Event)
    (h : uploadFile env bucketId fileName s = (Except.ok v, t)) :
    ∃ txHash r, env.issueStorageRequestTx = Except.ok (some txHash) ∧
      env.receipt txHash = Except.ok r ∧ r.status = "success" := by
  unfold uploadFile at h
  cases ha : env.address with
  | none => rw [ha] at h; simp [throwM_apply] at h
  | some address =>
    rw [ha] at h
    simp only [] at h
    cases hmi : env.mspInfo with
    | error e => rw [hmi] at h; simp [callE_error_bind] at h
    | ok info =>
      rw [hmi] at h
      rw [callE_ok_bind] at h
      cases hma : info.multiaddresses with
      | none => rw [hma] at h; simp [throwM_apply] at h
      | some mas =>
        rw [hma] at h
        simp only [] at h
        by_cases hempty : mas.isEmpty
        · rw [if_pos hempty] at h; simp [throwM_apply] at h
        · rw [if_neg hempty] at h
          by_cases hpeers : (mas.filterMap extractPeerId).length = 0
          · rw [if_pos hpeers] at h; simp [throwM_apply] at h
          · rw [if_neg hpeers] at h
            cases hgas : buildGasTxOpts env.latestBlock with
            | error e => rw [hgas] at h; simp [callE_error_bind] at h
            | ok gas =>
              rw [hgas] at h
              rw [callE_ok_bind] at h
              cases htx : env.issueStorageRequestTx with
              | error e => rw [htx] at h; simp [callE_error_bind] at h
              | ok txOpt =>
                rw [htx] at h
                rw [callE_ok_bind] at h
                cases txOpt with
                | none => simp [throwM_apply] at h
                | some txHash =>
                  simp only [] at h
                  cases hr : env.receipt txHash with
                  | error e => rw [hr] at h; simp [callE_error_bind] at h
                  | ok r =>
                    rw [hr] at h
                    rw [callE_ok_bind] at h
                    by_cases hs : r.status = "success"
                    · exact ⟨txHash, r, rfl, hr, hs⟩
                    · rw [if_pos (by simpa using hs)] at h
                      simp [throwM_apply] at h

theorem uploadFile_reverted (env : UploadFileEnv) (bucketId fileName address : String)
    (info : MspInfo) (mas : List String) (fee : Nat) (txHash : String) (r : Receipt)
    (s : List Event)
    (ha : env.address = some address) (hmi : env.mspInfo = Except.ok info)
    (hma : info.multiaddresses = some mas) (hempty : mas.isEmpty = false)
    (hpeers : (mas.filterMap extractPeerId).length ≠ 0)
    (hblk : env.latestBlock.baseFeePerGas = some fee)
    (htx : env.issueStorageRequestTx = Except.ok (some txHash))
    (hr : env.receipt txHash = Except.ok r) (hs : r.status ≠ "success") :
    uploadFile env bucketId fileName s =
      (Except.error (mkError ("Storage request failed: " ++ txHash)),
       s ++ [Event.indexCall "getInfo", Event.chainQuery "getBlock",
         Event.txSubmit "issueStorageRequest", Event.receiptWait]) := by
  unfold uploadFile
  rw [ha]
  have hne : mas ≠ [] := by
    intro hnil
    rw [hnil] at hempty
    simp at hempty
  have hp2 : ¬(∀ a ∈ mas, extractPeerId a = none) := by
    intro hall
    apply hpeers
    rw [List.length_eq_zero, List.filterMap_eq_nil]
    exact hall
  simp [callE_ok_bind, hmi, hma, hne, hp2, htx, hr, hs, buildGasTxOpts, hblk,
    throwM_apply]

theorem requestDeleteFile_ok_receipt (env : RequestDeleteFileEnv) (bucketId fileKey : String)
    (s : List Event) (v : Bool) (t : List Event)
    (h : requestDeleteFile env bucketId fileKey s = (Except.ok v, t)) :
    ∃ txHash r, env.requestDeleteFileTx = Except.ok txHash ∧
      env.receipt txHash = Except.ok r ∧ r.status = "success" := by
  unfold requestDeleteFile at h
  cases hfi : env.fileInfoBefore with
  | error e => rw [hfi] at h; simp [callE_error_bind] at h
  | ok fileInfo =>
    rw [hfi] at h
    rw [callE_ok_bind] at h
    cases hgas : buildGasTxOpts env.latestBlock with
    | error e => rw [hgas] at h; simp [callE_error_bind] at h
    | ok gas =>
      rw [hgas] at h
      rw [callE_ok_bind] at h
      cases htx : env.requestDeleteFileTx with
      | error e => rw [htx] at h; simp [callE_error_bind] at h
      | ok txHash =>
        rw [htx] at h
        rw [callE_ok_bind] at h
        cases hr : env.receipt txHash with
        | error e => rw [hr] at h; simp [callE_error_bind] at h
        | ok r =>
          rw [hr] at h
          rw [callE_ok_bind] at h
          by_cases hs : r.status = "success"
          · exact ⟨txHash, r, rfl, hr, hs⟩
          · rw [if_pos (by simpa using hs)] at h
            simp [throwM_apply] at h

theorem requestDeleteFile_reverted (env : RequestDeleteFileEnv) (bucketId fileKey : String)
    (fileInfo : FileInfo) (fee : Nat) (txHash : String) (r : Receipt) (s : List Event)
    (hfi : env.fileInfoBefore = Except.ok fileInfo)
    (hblk : env.latestBlock.baseFeePerGas = some fee)
    (htx : env.requestDeleteFileTx = Except.ok txHash)
    (hr : env.receipt txHash = Except.ok r) (hs : r.status ≠ "success") :
    requestDeleteFile env bucketId fileKey s =
      (Except.error (mkError ("File deletion failed: " ++ txHash)),
       s ++ [Event.indexCall "getFileInfo", Event.chainQuery "getBlock",
         Event.txSubmit "requestDeleteFile", Event.receiptWait]) := by
  unfold requestDeleteFile
  simp [callE_ok_bind, hfi, htx, hr, hs, buildGasTxOpts, hblk, throwM_apply]

theorem M_bind_run {α β : Type} (x : M α) (f : α → M β) (s s1 : List Event) (a : α)
    (hx : x s = (Except.ok a, s1)) : (x >>= f) s = f a s1 := by
  show M.bind x f s = f a s1
  unfold M.bind
  rw [hx]

/-- Claim C1: each ledger-write operation (`createBucket`, `deleteBucket`,
the storage-request submission inside `uploadFile`, `requestDeleteFile`)
returns success only if the awaited transaction receipt has status `success`,
and throws when the awaited receipt has any other status. -/
theorem ledger_write_success_iff_receipt_success
    (cenv : CreateBucketEnv) (denv : DeleteBucketEnv) (uenv : UploadFileEnv)
    (renv : RequestDeleteFileEnv) (bucketName bucketId fileName fileKey : String)
    (s : List Event) :
    (∀ v t, createBucket cenv bucketName s = (Except.ok v, t) →
      ∃ txHash r, cenv.createBucketTx = Except.ok (some txHash) ∧
        cenv.receipt txHash = Except.ok r ∧ r.status = "success") ∧
    (∀ address info vp fee txHash r, cenv.address = some address →
      cenv.mspInfo = Except.ok info → cenv.valueProps = Except.ok vp →
      cenv.queryBucketIsEmpty (cenv.deriveBucketId address bucketName) = Except.ok true →
      cenv.latestBlock.baseFeePerGas = some fee →
      cenv.createBucketTx = Except.ok (some txHash) →
      cenv.receipt txHash = Except.ok r → r.status ≠ "success" →
      (createBucket cenv bucketName s).1 =
        Except.error (mkError ("Bucket creation failed: " ++ txHash))) ∧
    (∀ v t, deleteBucket denv bucketId s = (Except.ok v, t) →
      ∃ txHash r, denv.deleteBucketTx = Except.ok (some txHash) ∧
        denv.receipt txHash = Except.ok r ∧ r.status = "success") ∧
    (∀ fee txHash r, denv.latestBlock.baseFeePerGas = some fee →
      denv.deleteBucketTx = Except.ok (some txHash) →
      denv.receipt txHash = Except.ok r → r.status ≠ "success" →
      (deleteBucket denv bucketId s).1 =
        Except.error (mkError ("Bucket deletion failed: " ++ txHash))) ∧
    (∀ v t, uploadFile uenv bucketId fileName s = (Except.ok v, t) →
      ∃ txHash r, uenv.issueStorageRequestTx = Except.ok (some txHash) ∧
        uenv.receipt txHash = Except.ok r ∧ r.status = "success") ∧
    (∀ address info mas fee txHash r, uenv.address = some address →
      uenv.mspInfo = Except.ok info → info.multiaddresses = some mas →
      mas.isEmpty = false → (mas.filterMap extractPeerId).length ≠ 0 →
      uenv.latestBlock.baseFeePerGas = some fee →
      uenv.issueStorageRequestTx = Except.ok (some txHash) →
      uenv.receipt txHash = Except.ok r → r.status ≠ "success" →
      (uploadFile uenv bucketId fileName s).1 =
        Except.error (mkError ("Storage request failed: " ++ txHash))) ∧
    (∀ v t, requestDeleteFile renv bucketId fileKey s = (Except.ok v, t) →
      ∃ txHash r, renv.requestDeleteFileTx = Except.ok txHash ∧
        renv.receipt txHash = Except.ok r ∧ r.status = "success") ∧
    (∀ fileInfo fee txHash r, renv.fileInfoBefore = Except.ok fileInfo →
      renv.latestBlock.baseFeePerGas = some fee →
      renv.requestDeleteFileTx = Except.ok txHash →
      renv.receipt txHash = Except.ok r → r.status ≠ "success" →
      (requestDeleteFile renv bucketId fileKey s).1 =
        Except.error (mkError ("File deletion failed: " ++ txHash))) := by
  refine ⟨?_, ?_, ?_, ?_, ?_, ?_, ?_, ?_⟩
  · intro v t h
    exact createBucket_ok_receipt cenv bucketName s v t h
  · intro address info vp fee txHash r ha hmi hvp hq hblk htx hr hs
    rw [createBucket_reverted cenv bucketName address info vp fee txHash r s
      ha hmi hvp hq hblk htx hr hs]
  · intro v t h
    exact deleteBucket_ok_receipt denv bucketId s v t h
  · intro fee txHash r hblk htx hr hs
    rw [deleteBucket_reverted denv bucketId fee txHash r s hblk htx hr hs]
  · intro v t h
    exact uploadFile_ok_receipt uenv bucketId fileName s v t h
  · intro address info mas fee txHash r ha hmi hma hempty hpeers hblk htx hr hs
    rw [uploadFile_reverted uenv bucketId fileName address info mas fee txHash r s
      ha hmi hma hempty hpeers hblk htx hr hs]
  · intro v t h
    exact requestDeleteFile_ok_receipt renv bucketId fileKey s v t h
  · intro fileInfo fee txHash r hfi hblk htx hr hs
    rw [requestDeleteFile_reverted renv bucketId fileKey fileInfo fee txHash r s
      hfi hblk htx hr hs]

/-- Witness for C1: on the happy-path environments every operation returns
success and its receipt oracle indeed reports `success`; on the reverted
environments every operation throws its receipt-failure error. -/
theorem ledger_write_success_iff_receipt_success_witness :
    (∃ txHash r, cenvOk.createBucketTx = Except.ok (some txHash) ∧
      cenvOk.receipt txHash = Except.ok r ∧ r.status = "success") ∧
    ((createBucket cenvRev "b" []).1 =
      Except.error (mkError ("Bucket creation failed: " ++ "0xT"))) ∧
    (∃ txHash r, denvOk.deleteBucketTx = Except.ok (some txHash) ∧
      denvOk.receipt txHash = Except.ok r ∧ r.status = "success") ∧
    ((deleteBucket denvRev "0xB" []).1 =
      Except.error (mkError ("Bucket deletion failed: " ++ "0xT"))) ∧
    (∃ txHash r, uenvOk.issueStorageRequestTx = Except.ok (some txHash) ∧
      uenvOk.receipt txHash = Except.ok r ∧ r.status = "success") ∧
    ((uploadFile uenvRev "0xB" "f.txt" []).1 =
      Except.error (mkError ("Storage request failed: " ++ "0xT"))) ∧
    (∃ txHash r, renvOk.requestDeleteFileTx = Except.ok txHash ∧
      renvOk.receipt txHash = Except.ok r ∧ r.status = "success") ∧
    ((requestDeleteFile renvRev "0xB" "0xFK" []).1 =
      Except.error (mkError ("File deletion failed: " ++ "0xT"))) := by
  have hOk := ledger_write_success_iff_receipt_success cenvOk denvOk uenvOk renvOk
    "b" "0xB" "f.txt" "0xFK" []
  have hRev := ledger_write_success_iff_receipt_success cenvRev denvRev uenvRev renvRev
    "b" "0xB" "f.txt" "0xFK" []
  refine ⟨hOk.1 ("0xB", ⟨"success"⟩)
      [Event.indexCall "getInfo", Event.indexCall "getValuePropositions",
       Event.chainQuery "buckets", Event.chainQuery "getBlock",
       Event.txSubmit "createBucket", Event.receiptWait] rfl, ?_,
    hOk.2.2.1 true
      [Event.chainQuery "getBlock", Event.txSubmit "deleteBucket", Event.receiptWait] rfl, ?_,
    hOk.2.2.2.2.1 ("0xFK", ⟨"upload_successful"⟩)
      [Event.indexCall "getInfo", Event.chainQuery "getBlock",
       Event.txSubmit "issueStorageRequest", Event.receiptWait,
       Event.chainQuery "storageRequests", Event.byteTransfer] rfl, ?_,
    hOk.2.2.2.2.2.2.1 true
      [Event.indexCall "getFileInfo", Event.chainQuery "getBlock",
       Event.txSubmit "requestDeleteFile", Event.receiptWait] rfl, ?_⟩
  · exact hRev.2.1 "0xA" ⟨"0xM", some ["/p2p/p1"]⟩ "0xVP" 7 "0xT" ⟨"reverted"⟩
      rfl rfl rfl rfl rfl rfl rfl (by decide)
  · exact hRev.2.2.2.1 7 "0xT" ⟨"reverted"⟩ rfl rfl rfl (by decide)
  · exact hRev.2.2.2.2.2.1 "0xA" ⟨"0xM", some ["/p2p/p1"]⟩ ["/p2p/p1"] 7 "0xT" ⟨"reverted"⟩
      rfl rfl rfl (by decide) (by decide) rfl rfl rfl (by decide)
  · exact hRev.2.2.2.2.2.2.2 ⟨"ready"⟩ 7 "0xT" ⟨"reverted"⟩ rfl rfl rfl rfl (by decide)

theorem deleteBucket_trace_shape (env : DeleteBucketEnv) (bucketId : String)
    (s : List Event) :
    ((deleteBucket env bucketId s).2.countP isIndexCallE = s.countP isIndexCallE) ∧
    ((deleteBucket env bucketId s).2.countP isWaitE = s.countP isWaitE) := by
  unfold deleteBucket
  cases hgas : buildGasTxOpts env.latestBlock with
  | error e =>
    simp [callE_error_bind, List.countP_append, List.countP_cons, isIndexCallE, isWaitE]
  | ok gas =>
    rw [callE_ok_bind]
    cases htx : env.deleteBucketTx with
    | error e =>
      simp [callE_error_bind, List.countP_append, List.countP_cons, isIndexCallE, isWaitE]
    | ok txOpt =>
      rw [callE_ok_bind]
      cases txOpt with
      | none =>
        simp [throwM_apply, List.countP_append, List.countP_cons, isIndexCallE, isWaitE]
      | some txHash =>
        simp only []
        cases hr : env.receipt txHash with
        | error e =>
          simp [callE_error_bind, List.countP_append, List.countP_cons, isIndexCallE, isWaitE]
        | ok r =>
          rw [callE_ok_bind]
          by_cases hs : r.status = "success"
          · rw [if_neg (by simpa using hs)]
            simp [pure_apply, List.countP_append, List.countP_cons, isIndexCallE, isWaitE]
          · rw [if_pos (by simpa using hs)]
            simp [throwM_apply, List.countP_append, List.countP_cons, isIndexCallE, isWaitE]

/-- Claim C8: bucket deletion is a single ledger write plus a receipt check
and performs no backend-index call and no poll wait, for every environment;
with a non-success receipt it throws (still with no index call), and with a
successful receipt it returns `true` immediately, with no index-convergence
wait. -/
theorem deleteBucket_no_index_interaction (env : DeleteBucketEnv) (bucketId : String)
    (s : List Event) :
    ((deleteBucket env bucketId s).2.countP isIndexCallE = s.countP isIndexCallE) ∧
    ((deleteBucket env bucketId s).2.countP isWaitE = s.countP isWaitE) ∧
    (∀ fee txHash r, env.latestBlock.baseFeePerGas = some fee →
      env.deleteBucketTx = Except.ok (some txHash) →
      env.receipt txHash = Except.ok r → r.status ≠ "success" →
      deleteBucket env bucketId s =
        (Except.error (mkError ("Bucket deletion failed: " ++ txHash)),
         s ++ [Event.chainQuery "getBlock", Event.txSubmit "deleteBucket",
           Event.receiptWait])) ∧
    (∀ fee txHash r, env.latestBlock.baseFeePerGas = some fee →
      env.deleteBucketTx = Except.ok (some txHash) →
      env.receipt txHash = Except.ok r → r.status = "success" →
      deleteBucket env bucketId s =
        (Except.ok true,
         s ++ [Event.chainQuery "getBlock", Event.txSubmit "deleteBucket",
           Event.receiptWait])) := by
  refine ⟨(deleteBucket_trace_shape env bucketId s).1,
    (deleteBucket_trace_shape env bucketId s).2, ?_, ?_⟩
  · intro fee txHash r hblk htx hr hs
    exact deleteBucket_reverted env bucketId fee txHash r s hblk htx hr hs
  · intro fee txHash r hblk htx hr hs
    exact deleteBucket_success env bucketId fee txHash r s hblk htx hr hs

/-- Witness for C8: on the concrete reverted environment `deleteBucket`
throws with a trace containing no backend call and no wait, and on the
concrete success environment it returns `true` with the same trace shape. -/
theorem deleteBucket_no_index_interaction_witness :
    ((deleteBucket denvRev "0xB" []).2.countP isIndexCallE = List.countP isIndexCallE []) ∧
    (deleteBucket denvRev "0xB" [] =
      (Except.error (mkError ("Bucket deletion failed: " ++ "0xT")),
       [] ++ [Event.chainQuery "getBlock", Event.txSubmit "deleteBucket",
         Event.receiptWait])) ∧
    (deleteBucket denvOk "0xB" [] =
      (Except.ok true,
       [] ++ [Event.chainQuery "getBlock", Event.txSubmit "deleteBucket",
         Event.receiptWait])) := by
  have hRev := deleteBucket_no_index_interaction denvRev "0xB" []
  have hOk := deleteBucket_no_index_interaction denvOk "0xB" []
  exact ⟨hRev.1, hRev.2.2.1 7 "0xT" ⟨"reverted"⟩ rfl rfl rfl (by decide),
    hOk.2.2.2 7 "0xT" ⟨"success"⟩ rfl rfl rfl rfl⟩

/-- Claim C10: when the client-side derived bucket id already corresponds to
a non-empty record on the ledger, `createBucket` throws `Bucket already
exists` before submitting any transaction: the trace ends at the existence
check and contains no ledger write. -/
theorem createBucket_already_exists_no_write (env : CreateBucketEnv)
    (bucketName address : String) (info : MspInfo) (vp : String) (s : List Event)
    (ha : env.address = some address) (hmi : env.mspInfo = Except.ok info)
    (hvp : env.valueProps = Except.ok vp)
    (hq : env.queryBucketIsEmpty (env.deriveBucketId address bucketName) = Except.ok false) :
    createBucket env bucketName s =
      (Except.error (mkError
        ("Bucket already exists: " ++ env.deriveBucketId address bucketName)),
       s ++ [Event.indexCall "getInfo", Event.indexCall "getValuePropositions",
         Event.chainQuery "buckets"]) ∧
    (createBucket env bucketName s).2.countP isTxSubmitE = s.countP isTxSubmitE := by
  have hrun : createBucket env bucketName s =
      (Except.error (mkError
        ("Bucket already exists: " ++ env.deriveBucketId address bucketName)),
       s ++ [Event.indexCall "getInfo", Event.indexCall "getValuePropositions",
         Event.chainQuery "buckets"]) := by
    unfold createBucket
    rw [ha]
    simp [callE_ok_bind, hmi, hvp, hq, throwM_apply]
  refine ⟨hrun, ?_⟩
  rw [hrun]
  simp [List.countP_append, List.countP_cons, isTxSubmitE]

/-- Witness for C10: a concrete environment whose ledger read reports the
derived bucket id as already occupied makes `createBucket` fail with `Bucket
already exists` and submit nothing. -/
theorem createBucket_already_exists_no_write_witness :
    (createBucket
        ⟨some "0xA", Except.ok ⟨"0xM", some ["/p2p/p1"]⟩, Except.ok "0xVP",
         fun _ _ => "0xB", fun _ => Except.ok false, ⟨some 7⟩,
         Except.ok (some "0xT"), fun _ => Except.ok ⟨"success"⟩⟩ "b" [] =
      (Except.error (mkError ("Bucket already exists: " ++ "0xB")),
       [] ++ [Event.indexCall "getInfo", Event.indexCall "getValuePropositions",
         Event.chainQuery "buckets"]) ∧
    (createBucket
        ⟨some "0xA", Except.ok ⟨"0xM", some ["/p2p/p1"]⟩, Except.ok "0xVP",
         fun _ _ => "0xB", fun _ => Except.ok false, ⟨some 7⟩,
         Except.ok (some "0xT"), fun _ => Except.ok ⟨"success"⟩⟩ "b" []).2.countP isTxSubmitE =
      List.countP isTxSubmitE []) :=
  createBucket_already_exists_no_write
    ⟨some "0xA", Except.ok ⟨"0xM", some ["/p2p/p1"]⟩, Except.ok "0xVP",
     fun _ _ => "0xB", fun _ => Except.ok false, ⟨some 7⟩,
     Except.ok (some "0xT"), fun _ => Except.ok ⟨"success"⟩⟩
    "b" "0xA" ⟨"0xM", some ["/p2p/p1"]⟩ "0xVP" [] rfl rfl rfl rfl

/-- Claim C9: `disconnectMsp` is idempotent, and after it runs the session
provider yields no credentials for any connected address, so every subsequent
backend request is dispatched without a token. -/
theorem disconnectMsp_idempotent_and_clears_session (st : MspState)
    (addr : Option String) :
    disconnectMsp (disconnectMsp st) = disconnectMsp st ∧
    sessionProvider (disconnectMsp st) addr = none ∧
    dispatchedToken (disconnectMsp st) addr = none := by
  refine ⟨rfl, ?_, ?_⟩ <;> cases addr <;> rfl

theorem M_pure_bind {α β : Type} (a : α) (f : α → M β) (s : List Event) :
    ((M.pure a : M α) >>= f) s = f a s := rfl

theorem uploadFile_success (env : UploadFileEnv) (bucketId fileName address : String)
    (info : MspInfo) (mas : List String) (fee : Nat) (txHash : String) (r : Receipt)
    (d : StorageRequestData) (ur : UploadReceipt) (s : List Event)
    (ha : env.address = some address) (hmi : env.mspInfo = Except.ok info)
    (hma : info.multiaddresses = some mas) (hempty : mas.isEmpty = false)
    (hpeers : (mas.filterMap extractPeerId).length ≠ 0)
    (hblk : env.latestBlock.baseFeePerGas = some fee)
    (htx : env.issueStorageRequestTx = Except.ok (some txHash))
    (hr : env.receipt txHash = Except.ok r) (hs : r.status = "success")
    (hsr : env.storageRequests (env.computeFileKey address bucketId fileName) =
      Except.ok (some d))
    (hauth : env.isAuthenticated = true)
    (hup : env.mspUpload = Except.ok ur) (hurs : ur.status = "upload_successful") :
    uploadFile env bucketId fileName s =
      (Except.ok (env.computeFileKey address bucketId fileName, ur),
       s ++ [Event.indexCall "getInfo", Event.chainQuery "getBlock",
         Event.txSubmit "issueStorageRequest", Event.receiptWait,
         Event.chainQuery "storageRequests", Event.byteTransfer]) := by
  unfold uploadFile
  rw [ha]
  have hne : mas ≠ [] := by
    intro hnil
    rw [hnil] at hempty
    simp at hempty
  have hp2 : ¬(∀ a ∈ mas, extractPeerId a = none) := by
    intro hall
    apply hpeers
    rw [List.length_eq_zero, List.filterMap_eq_nil]
    exact hall
  simp [callE_ok_bind, hmi, hma, hne, hp2, buildGasTxOpts, hblk, htx, hr, hs, hsr,
    maybeAuthenticate, hauth, M_pure_bind, hup, hurs, pure_apply]

/-- Claim C2 (counterexample): in a fully successful upload run the byte
transfer to the storage provider occurs strictly before the `confirming`
progress step (and hence before the confirmation poll has observed any
countersignature), and no byte transfer occurs at or after the `confirming`
step — contradicting the claim that the bytes are transferred during the
`finalizing` step only after the countersignature is confirmed. -/
theorem upload_transfer_before_confirm_counterexample :
    handleUpload henvHappy "0xB" "f.txt" [] = (Except.ok (), uploadHappyTrace) ∧
    Event.byteTransfer ∈
      uploadHappyTrace.takeWhile (fun e => decide (e ≠ Event.progress "confirming")) ∧
    Event.byteTransfer ∉
      uploadHappyTrace.dropWhile (fun e => decide (e ≠ Event.progress "confirming")) := by
  refine ⟨rfl, by decide, by decide⟩

theorem emit_apply (e : Event) (s : List Event) :
    emit e s = (Except.ok (), s ++ [e]) := rfl

/-- Claim C2 (amended): in a fully successful upload flow whose polls succeed
on their first probe, the byte transfer to the storage provider happens
during the `issuing` step, inside `uploadFile`, after the storage-request
receipt and the on-chain verification — strictly before the `confirming`
step's countersignature poll — and no byte transfer happens at or after the
`confirming` step (the `finalizing` step only polls the backend index). -/
theorem handleUpload_transfer_during_issuing (env : HandleUploadEnv)
    (bucketId fileName address : String) (info : MspInfo) (mas : List String)
    (fee : Nat) (txHash : String) (r : Receipt) (d : StorageRequestData)
    (ur : UploadReceipt) (d2 : StorageRequestData) (finfo : FileInfo) (s : List Event)
    (ha : env.upload.address = some address) (hmi : env.upload.mspInfo = Except.ok info)
    (hma : info.multiaddresses = some mas) (hempty : mas.isEmpty = false)
    (hpeers : (mas.filterMap extractPeerId).length ≠ 0)
    (hblk : env.upload.latestBlock.baseFeePerGas = some fee)
    (htx : env.upload.issueStorageRequestTx = Except.ok (some txHash))
    (hr : env.upload.receipt txHash = Except.ok r) (hs : r.status = "success")
    (hsr : env.upload.storageRequests (env.upload.computeFileKey address bucketId fileName) =
      Except.ok (some d))
    (hauth : env.upload.isAuthenticated = true)
    (hup : env.upload.mspUpload = Except.ok ur) (hurs : ur.status = "upload_successful")
    (hc : env.confirmProbe 0 = some d2) (hc2 : srConfirmed d2 = true)
    (hf : env.fileReadyProbe 0 = Except.ok finfo) (hfr : finfo.status = "ready") :
    handleUpload env bucketId fileName s = (Except.ok (), s ++ uploadHappyTrace) ∧
    Event.byteTransfer ∈
      uploadHappyTrace.takeWhile (fun e => decide (e ≠ Event.progress "confirming")) ∧
    Event.byteTransfer ∉
      uploadHappyTrace.dropWhile (fun e => decide (e ≠ Event.progress "confirming")) := by
  have hconf : ∀ s' : List Event,
      waitForMSPConfirmOnChain (env.upload.computeFileKey address bucketId fileName)
        env.confirmProbe s' =
      (Except.ok (), s' ++ [Event.chainQuery "storageRequests"]) := by
    intro s'
    have := confirmAux_confirmed (env.upload.computeFileKey address bucketId fileName)
      env.confirmProbe d2 hc2 0 0 10 s' (by omega) (by intro j hj; omega) hc
    rw [waitForMSPConfirmOnChain]
    simpa [pollTrace] using this
  have hready : ∀ s' : List Event,
      waitForBackendFileReady env.fileReadyProbe s' =
      (Except.ok finfo, s' ++ [Event.indexCall "getFileInfo"]) := by
    intro s'
    have := fileAux_ready env.fileReadyProbe finfo hfr 0 0 60 s' (by omega)
      (by intro j hj; omega) hf
    rw [waitForBackendFileReady]
    simpa [pollTrace] using this
  refine ⟨?_, by decide, by decide⟩
  unfold handleUpload
  rw [emit_bind, emit_bind, emit_bind]
  rw [M_bind_run _ _ _ _ _ (uploadFile_success env.upload bucketId fileName address info mas
    fee txHash r d ur _ ha hmi hma hempty hpeers hblk htx hr hs hsr hauth hup hurs)]
  simp only []
  rw [emit_bind]
  rw [M_bind_run _ _ _ _ _ (hconf _)]
  rw [emit_bind]
  rw [M_bind_run _ _ _ _ _ (hready _)]
  rw [emit_apply]
  simp [uploadHappyTrace]

/-- Witness for the amended C2 theorem at the concrete happy-path
environment. -/
theorem handleUpload_transfer_during_issuing_witness :
    handleUpload henvHappy "0xB" "f.txt" [] = (Except.ok (), [] ++ uploadHappyTrace) ∧
    Event.byteTransfer ∈
      uploadHappyTrace.takeWhile (fun e => decide (e ≠ Event.progress "confirming")) ∧
    Event.byteTransfer ∉
      uploadHappyTrace.dropWhile (fun e => decide (e ≠ Event.progress "confirming")) :=
  handleUpload_transfer_during_issuing henvHappy "0xB" "f.txt" "0xA"
    ⟨"0xM", some ["/p2p/p1"]⟩ ["/p2p/p1"] 7 "0xT" ⟨"success"⟩ ⟨some ("0xM", true)⟩
    ⟨"upload_successful"⟩ ⟨some ("0xM", true)⟩ ⟨"ready"⟩ []
    rfl rfl rfl (by decide) (by decide) rfl rfl rfl rfl rfl rfl rfl rfl rfl rfl rfl rfl
